import Mathlib

/-!
Shallow embedding of the MixMyRoutine ingredient knowledge base and advisor
(`src/knowledge/ingredients.py`, `backend/app/core/agent/advisor.py`) together
with proofs of the specification claims about it.

Python strings are modelled as Lean `String`s; `str.lower` as a character map
(`Char.toLower`, adequate for the ASCII catalog data), substring tests
(`needle in hay`) as contiguous sublist search on the character lists, and
`str.replace` as leftmost non-overlapping replacement.  Python dicts are
modelled as insertion-ordered association lists where a lookup finds the most
recent binding (assignment overwrites).  `networkx.Graph` edge-attribute
lookup is modelled by the most recently added interaction record for the
unordered pair of endpoints.  Python floats (only half-integer pH values
occur) are modelled as rationals.
-/

namespace MixMyRoutine

/-- Python `str.lower()` (character-wise; the catalog data is ASCII apart
from a Greek alpha, which both Python and Lean leave unchanged). -/
def lowerStr (s : String) : String := String.mk (s.data.map Char.toLower)

/-- Contiguous-sublist test on character lists: Python `needle in hay`. -/
def subAt (needle : List Char) : List Char → Bool
  | [] => needle.isEmpty
  | c :: rest => needle.isPrefixOf (c :: rest) || subAt needle rest

/-- Python substring test `needle in hay` on strings. -/
def containsSub (needle hay : String) : Bool := subAt needle.data hay.data

/-- Leftmost non-overlapping replacement, structurally recursive on a fuel
counter so that it reduces inside the kernel; the fuel is the text length,
which bounds the number of steps since every step consumes at least one
character. -/
def replaceAllAux (needle rep : List Char) : Nat → List Char → List Char
  | 0, hay => hay
  | _ + 1, [] => []
  | fuel + 1, c :: rest =>
    if needle ≠ [] ∧ needle.isPrefixOf (c :: rest) then
      rep ++ replaceAllAux needle rep fuel ((c :: rest).drop needle.length)
    else
      c :: replaceAllAux needle rep fuel rest

/-- Replacement of every occurrence, Python `hay.replace(needle, rep)`.
(Python treats an empty needle specially; the model returns the text
unchanged in that never-exercised case.) -/
def replaceAll (needle rep hay : List Char) : List Char :=
  replaceAllAux needle rep hay.length hay

/-- Python `hay.replace(needle, rep)` on strings. -/
def replaceStr (needle rep hay : String) : String :=
  String.mk (replaceAll needle.data rep.data hay.data)

/-- Python string slice `s[:n]`. -/
def takeStr (n : Nat) (s : String) : String := String.mk (s.data.take n)

/-- Insertion of `x` into a list sorted descending by `key`, placing `x`
before the first element with a strictly smaller key (so equal keys keep
their original relative order). -/
def insertDesc (key : α → Nat) (x : α) : List α → List α
  | [] => [x]
  | y :: ys => if key y ≤ key x then x :: y :: ys else y :: insertDesc key x ys

/-- Stable sort, descending by `key`: the semantics of Python's stable
`list.sort(key=key, reverse=True)` / `sorted(..., key=key, reverse=True)`. -/
def sortByKeyDesc (key : α → Nat) (l : List α) : List α :=
  l.foldr (insertDesc key) []

/-- All ordered index pairs `i < j` of a list, in Python's nested-loop order
`for i, a in enumerate(l): for b in l[i+1:]`. -/
def pairsOf : List α → List (α × α)
  | [] => []
  | x :: xs => xs.map (fun y => (x, y)) ++ pairsOf xs

/-- Lookup in an insertion-ordered association list where a later binding for
the same key overwrites an earlier one (Python dict assignment). -/
def lookupLast (l : List (String × String)) (k : String) : Option String :=
  ((l.filter (fun p => p.1 == k)).getLast?).map (·.2)

/-! ### Enumerations (`src/knowledge/ingredients.py`) -/

/-- `IngredientCategory` enum. -/
inductive IngredientCategory where
  | retinoid | aha | bha | vitaminC | niacinamide | peptide | hyaluronicAcid
  | ceramide | spf | moisturizer | cleanser | oil | enzyme | benzoylPeroxide
  | azelaicAcid | other
  deriving DecidableEq

/-- The enum's `.value` string. -/
def IngredientCategory.value : IngredientCategory → String
  | .retinoid => "retinoid"
  | .aha => "alpha_hydroxy_acid"
  | .bha => "beta_hydroxy_acid"
  | .vitaminC => "vitamin_c"
  | .niacinamide => "niacinamide"
  | .peptide => "peptide"
  | .hyaluronicAcid => "hyaluronic_acid"
  | .ceramide => "ceramide"
  | .spf => "sunscreen"
  | .moisturizer => "moisturizer"
  | .cleanser => "cleanser"
  | .oil => "facial_oil"
  | .enzyme => "enzyme"
  | .benzoylPeroxide => "benzoyl_peroxide"
  | .azelaicAcid => "azelaic_acid"
  | .other => "other"

/-- `InteractionType` enum. -/
inductive InteractionType where
  | conflicts | caution | synergizes | requiresWaiting | deactivates
  | increasesSensitivity
  deriving DecidableEq

/-- `SkinType` enum. -/
inductive SkinType where
  | dry | oily | combination | sensitive | normal
  deriving DecidableEq

/-- `SkinConcern` enum. -/
inductive SkinConcern where
  | acne | aging | hyperpigmentation | dryness | oiliness | sensitivity
  | dullness | texture | redness | darkCircles | pores
  deriving DecidableEq

/-- The enum's `.value` string. -/
def SkinConcern.value : SkinConcern → String
  | .acne => "acne"
  | .aging => "aging"
  | .hyperpigmentation => "hyperpigmentation"
  | .dryness => "dryness"
  | .oiliness => "oiliness"
  | .sensitivity => "sensitivity"
  | .dullness => "dullness"
  | .texture => "texture"
  | .redness => "redness"
  | .darkCircles => "dark_circles"
  | .pores => "pores"

/-- `TimeOfDay` enum. -/
inductive TimeOfDay where
  | amOnly | pmOnly | amOrPm | amAndPm
  deriving DecidableEq

/-- The enum's `.value` string. -/
def TimeOfDay.value : TimeOfDay → String
  | .amOnly => "morning_only"
  | .pmOnly => "evening_only"
  | .amOrPm => "either"
  | .amAndPm => "both"

/-! ### Data frames -/

/-- The `Ingredient` dataclass; a pH endpoint is stored in tenths of a pH
unit (an integer, exact for the catalog's one-decimal Python floats):
`(5.5, 6.5)` in the source is `(55, 65)` here. -/
structure Ingredient where
  id : String
  name : String
  category : IngredientCategory
  aliases : List String := []
  optimal_ph : Option (Int × Int) := none
  water_soluble : Bool := true
  time_of_day : TimeOfDay := .amOrPm
  application_order : Nat := 5
  addresses_concerns : List SkinConcern := []
  caution_skin_types : List SkinType := []
  description : String := ""
  how_it_works : String := ""
  usage_tips : List String := []
  beginner_friendly : Bool := true
  max_concentration : Option String := none
  deriving DecidableEq

/-- The `Interaction` dataclass. -/
structure Interaction where
  ingredient_a : String
  ingredient_b : String
  interaction_type : InteractionType
  severity : Nat := 5
  explanation : String := ""
  recommendation : String := ""
  wait_minutes : Option Nat := none
  deriving DecidableEq

/-- The `SkinProfile` dataclass (the fields the graph consults). -/
structure SkinProfile where
  skin_type : SkinType
  concerns : List SkinConcern := []
  sensitivities : List String := []
  deriving DecidableEq

/-! ### The knowledge graph -/

/-- `IngredientKnowledgeGraph` state after construction: the insertion-ordered
ingredient table and the list of interaction records in registration order
(the `networkx` edge set; for lookups the last record added for an unordered
pair of endpoints is the edge's `interaction` attribute). -/
structure KnowledgeGraph where
  ingredientsList : List Ingredient
  interactions : List Interaction

/-- The `_alias_index` contents in registration order: for each ingredient in
insertion order, each alias lower-cased, then the lower-cased display name,
then the lower-cased id, all mapping to the id (`add_ingredient`). -/
def aliasEntries (kb : KnowledgeGraph) : List (String × String) :=
  kb.ingredientsList.flatMap fun x =>
    x.aliases.map (fun a => (lowerStr a, x.id)) ++
      [(lowerStr x.name, x.id), (lowerStr x.id, x.id)]

/-- `self._alias_index.get(k)`. -/
def aliasLookup (kb : KnowledgeGraph) (k : String) : Option String :=
  lookupLast (aliasEntries kb) k

/-- `self.ingredients[i]` / `self.ingredients.get(i)` (ids are unique). -/
def idLookup (kb : KnowledgeGraph) (i : String) : Option Ingredient :=
  kb.ingredientsList.find? (fun x => x.id == i)

/-- `self._alias_index.get(s.lower(), s)` — id normalisation used by
`get_interaction` and `check_compatibility`. -/
def resolveAlias (kb : KnowledgeGraph) (s : String) : String :=
  (aliasLookup kb (lowerStr s)).getD s

/-- `get_ingredient`: exact id lookup, else case-folded alias lookup (the
Python `if ingredient_id:` truthiness also rejects an empty-string id). -/
def get_ingredient (kb : KnowledgeGraph) (identifier : String) : Option Ingredient :=
  match idLookup kb identifier with
  | some ing => some ing
  | none =>
    match aliasLookup kb (lowerStr identifier) with
    | some iid => if iid = "" then none else idLookup kb iid
    | none => none

/-- The `interaction` attribute of the undirected edge between `x` and `y`:
the last interaction registered for the unordered pair, if any. -/
def edgeInteraction (kb : KnowledgeGraph) (x y : String) : Option Interaction :=
  (kb.interactions.filter fun e =>
    (e.ingredient_a == x && e.ingredient_b == y) ||
      (e.ingredient_a == y && e.ingredient_b == x)).getLast?

/-- `get_interaction`: normalise both identifiers through the alias index,
then read the edge, if present. -/
def get_interaction (kb : KnowledgeGraph) (a b : String) : Option Interaction :=
  edgeInteraction kb (resolveAlias kb a) (resolveAlias kb b)

/-- One entry of a `check_compatibility` bucket (the `pair_info` dict);
`wait_minutes` is set only on `wait_times` entries. -/
structure PairInfo where
  ingredient_a : String
  ingredient_b : String
  explanation : String
  recommendation : String
  severity : Nat
  wait_minutes : Option Nat := none
  deriving DecidableEq

/-- The dict returned by `check_compatibility`. -/
structure CompatReport where
  conflicts : List PairInfo := []
  cautions : List PairInfo := []
  synergies : List PairInfo := []
  wait_times : List PairInfo := []
  is_compatible : Bool := true
  deriving DecidableEq

/-- Display name of a catalog id (`self.ingredients[i].name`; in
`check_compatibility` the id is always present, the empty default is
unreachable there). -/
def nameOf (kb : KnowledgeGraph) (i : String) : String :=
  ((idLookup kb i).map Ingredient.name).getD ""

/-- One iteration of the `check_compatibility` pair loop. -/
def processPair (kb : KnowledgeGraph) (r : CompatReport) (p : String × String) :
    CompatReport :=
  match get_interaction kb p.1 p.2 with
  | none => r
  | some i =>
    let info : PairInfo :=
      { ingredient_a := nameOf kb p.1
        ingredient_b := nameOf kb p.2
        explanation := i.explanation
        recommendation := i.recommendation
        severity := i.severity }
    match i.interaction_type with
    | .conflicts =>
        { r with conflicts := r.conflicts ++ [info], is_compatible := false }
    | .caution => { r with cautions := r.cautions ++ [info] }
    | .synergizes => { r with synergies := r.synergies ++ [info] }
    | .requiresWaiting =>
        { r with wait_times :=
            r.wait_times ++ [{ info with wait_minutes := i.wait_minutes }] }
    | .deactivates =>
        { r with conflicts := r.conflicts ++ [info], is_compatible := false }
    | .increasesSensitivity => r

/-- The id-normalisation loop of `check_compatibility`: resolve each input
id through the alias index and keep it only when it is a catalog id (no
deduplication). -/
def normalizeIds (kb : KnowledgeGraph) (ingredient_ids : List String) :
    List String :=
  ingredient_ids.filterMap fun s =>
    let r := resolveAlias kb s
    if (idLookup kb r).isSome then some r else none

/-- `check_compatibility`: normalise the input ids, then bucket the
interaction of every ordered index pair `i < j`. -/
def check_compatibility (kb : KnowledgeGraph) (ingredient_ids : List String) :
    CompatReport :=
  (pairsOf (normalizeIds kb ingredient_ids)).foldl (processPair kb) {}

/-- `get_recommended_ingredients` filter condition: addresses one of the
profile's concerns, the skin type needs no caution, and the user is not
sensitive to it. -/
def recommendOk (profile : SkinProfile) (x : Ingredient) : Bool :=
  profile.concerns.any (fun c => x.addresses_concerns.contains c) &&
    !(x.caution_skin_types.contains profile.skin_type) &&
      !(profile.sensitivities.contains x.id)

/-- `len(set(x.addresses_concerns) & set(profile.concerns))`: the number of
distinct concerns the ingredient and the profile share. -/
def concernOverlap (profile : SkinProfile) (x : Ingredient) : Nat :=
  (x.addresses_concerns.dedup.filter (fun c => profile.concerns.contains c)).length

/-- `get_recommended_ingredients`: filter the catalog in insertion order, then
stable-sort descending by shared-concern count (Python `sort(key=...,
reverse=True)` is stable, which `sortByKeyDesc` reproduces exactly). -/
def get_recommended_ingredients (kb : KnowledgeGraph) (profile : SkinProfile) :
    List Ingredient :=
  sortByKeyDesc (concernOverlap profile)
    (kb.ingredientsList.filter (recommendOk profile))

/-- Python `str(float)` for the catalog's one-decimal pH values, applied to
the tenth-of-a-unit integer encoding (`55 ↦ "5.5"`, `30 ↦ "3.0"`). -/
def phRepr (n : Int) : String :=
  toString (n / 10) ++ "." ++ toString (n % 10)

/-- `_check_implicit_conflicts`: the pH-incompatibility text when both
ingredients declare a range and the ranges are separated by more than one pH
unit (ten tenths), otherwise nothing. -/
def check_implicit_conflicts (ing_a ing_b : Ingredient) : Option String :=
  match ing_a.optimal_ph, ing_b.optimal_ph with
  | some (a_min, a_max), some (b_min, b_max) =>
    if a_max < b_min - 10 ∨ b_max < a_min - 10 then
      some ("Potential pH conflict: " ++ ing_a.name ++ " works best at pH " ++
        phRepr a_min ++ "-" ++ phRepr a_max ++ ", while " ++ ing_b.name ++
        " needs pH " ++ phRepr b_min ++ "-" ++ phRepr b_max ++
        ". Using together may reduce effectiveness of one or both.")
    else none
  | _, _ => none

/-- The generic fallback text of `explain_interaction`. -/
def noKnownText (ing_a ing_b : Ingredient) : String :=
  "No known interaction between " ++ ing_a.name ++ " and " ++ ing_b.name ++
    ". Generally safe to use together."

/-- The `lines` built for an explicit interaction in `explain_interaction`
(`deactivates` and `increases_sensitivity` produce no headline; empty
explanation/recommendation and a missing or zero wait time add nothing). -/
def explainLines (ing_a ing_b : Ingredient) (i : Interaction) : List String :=
  (match i.interaction_type with
    | .conflicts =>
        ["⚠️ CONFLICT: " ++ ing_a.name ++ " and " ++ ing_b.name ++
          " should not be used together."]
    | .caution =>
        ["⚡ CAUTION: " ++ ing_a.name ++ " and " ++ ing_b.name ++
          " can be used together with care."]
    | .synergizes =>
        ["✨ SYNERGY: " ++ ing_a.name ++ " and " ++ ing_b.name ++
          " work great together!"]
    | .requiresWaiting =>
        ["⏱️ TIMING: Wait between applying " ++ ing_a.name ++ " and " ++
          ing_b.name ++ "."]
    | _ => []) ++
  (if i.explanation ≠ "" then ["\nWhy: " ++ i.explanation] else []) ++
  (if i.recommendation ≠ "" then
    ["\nRecommendation: " ++ i.recommendation] else []) ++
  (match i.wait_minutes with
    | some w =>
      if w ≠ 0 then
        ["\nWait time: " ++ toString w ++ " minutes between applications."]
      else []
    | none => [])

/-- `explain_interaction`: not-found text if either ingredient is unknown;
templated explanation of an explicit interaction; otherwise the implicit pH
check, then the generic no-known-interaction text. -/
def explain_interaction (kb : KnowledgeGraph) (a b : String) : String :=
  match get_ingredient kb a, get_ingredient kb b with
  | some ing_a, some ing_b =>
    (match get_interaction kb a b with
      | some i => String.intercalate "\n" (explainLines ing_a ing_b i)
      | none =>
        match check_implicit_conflicts ing_a ing_b with
        | some e => e
        | none => noKnownText ing_a ing_b)
  | _, _ => "One or both ingredients not found in database."

/-! ### The catalog (`create_skincare_knowledge_base`), ingredient frames -/

/-- Catalog entry `retinol`. -/
def retinolIng : Ingredient :=
  { id := "retinol", name := "Retinol", category := .retinoid
    aliases := ["vitamin a", "retinyl palmitate", "retinaldehyde", "retinoic acid"]
    optimal_ph := some (55, 65), water_soluble := false
    time_of_day := .pmOnly, application_order := 6
    addresses_concerns := [.aging, .acne, .texture, .hyperpigmentation, .pores]
    caution_skin_types := [.sensitive]
    description := "Gold standard anti-aging ingredient that increases cell turnover."
    how_it_works := "Binds to retinoic acid receptors in skin cells, accelerating cell turnover and stimulating collagen production."
    usage_tips := ["Start with low concentration (0.25-0.5%) 2-3x per week",
      "Always use SPF during the day", "Apply to dry skin to reduce irritation",
      "Expect purging for 4-6 weeks"]
    beginner_friendly := false
    max_concentration := some "Start at 0.25%, work up to 1%" }

/-- Catalog entry `glycolic_acid`. -/
def glycolicIng : Ingredient :=
  { id := "glycolic_acid", name := "Glycolic Acid", category := .aha
    aliases := ["glycolic", "aha"]
    optimal_ph := some (30, 40), water_soluble := true
    time_of_day := .pmOnly, application_order := 4
    addresses_concerns := [.texture, .dullness, .hyperpigmentation, .aging]
    caution_skin_types := [.sensitive, .dry]
    description := "Smallest AHA molecule, penetrates deeply for effective exfoliation."
    how_it_works := "Dissolves bonds between dead skin cells, revealing fresher skin underneath."
    usage_tips := ["Start with 5-10% concentration", "Use 2-3x per week initially",
      "Don't combine with other actives when starting"]
    beginner_friendly := true
    max_concentration := some "Up to 30% for peels (professional use)" }

/-- Catalog entry `lactic_acid`. -/
def lacticIng : Ingredient :=
  { id := "lactic_acid", name := "Lactic Acid", category := .aha
    aliases := ["lactic"]
    optimal_ph := some (35, 45), water_soluble := true
    time_of_day := .pmOnly, application_order := 4
    addresses_concerns := [.texture, .dullness, .dryness, .hyperpigmentation]
    caution_skin_types := [.sensitive]
    description := "Gentler AHA that also provides hydration."
    how_it_works := "Larger molecule than glycolic, so it penetrates more slowly and gently. Also acts as a humectant."
    usage_tips := ["Great for sensitive skin as a starting AHA",
      "Provides hydration while exfoliating"]
    beginner_friendly := true }

/-- Catalog entry `salicylic_acid`. -/
def salicylicIng : Ingredient :=
  { id := "salicylic_acid", name := "Salicylic Acid", category := .bha
    aliases := ["bha", "salicylic", "beta hydroxy acid"]
    optimal_ph := some (30, 40), water_soluble := false
    time_of_day := .amOrPm, application_order := 4
    addresses_concerns := [.acne, .pores, .oiliness, .texture]
    caution_skin_types := [.dry]
    description := "Oil-soluble acid that penetrates into pores to clear congestion."
    how_it_works := "Being oil-soluble, it can penetrate sebum-filled pores to exfoliate from within."
    usage_tips := ["Excellent for blackheads and whiteheads",
      "Can be drying - always moisturize", "Safe to use daily for most people"]
    beginner_friendly := true
    max_concentration := some "2% OTC, higher needs prescription" }

/-- Catalog entry `vitamin_c`. -/
def vitaminCIng : Ingredient :=
  { id := "vitamin_c", name := "Vitamin C (L-Ascorbic Acid)", category := .vitaminC
    aliases := ["l-ascorbic acid", "ascorbic acid", "vit c", "laa"]
    optimal_ph := some (25, 35), water_soluble := true
    time_of_day := .amOnly, application_order := 4
    addresses_concerns := [.hyperpigmentation, .dullness, .aging, .darkCircles]
    caution_skin_types := [.sensitive]
    description := "Powerful antioxidant that brightens skin and boosts sun protection."
    how_it_works := "Neutralizes free radicals, inhibits melanin production, and is essential for collagen synthesis."
    usage_tips := ["Use in the morning before sunscreen for antioxidant protection",
      "Store in a cool, dark place - it oxidizes easily",
      "If it turns brown/orange, it's gone bad"]
    beginner_friendly := true
    max_concentration := some "10-20% is effective; higher can irritate" }

/-- Catalog entry `vitamin_c_derivative`. -/
def vitCDerivIng : Ingredient :=
  { id := "vitamin_c_derivative", name := "Vitamin C Derivatives", category := .vitaminC
    aliases := ["sodium ascorbyl phosphate", "ascorbyl glucoside",
      "magnesium ascorbyl phosphate", "ascorbyl tetraisopalmitate"]
    optimal_ph := some (50, 70), water_soluble := true
    time_of_day := .amOrPm, application_order := 4
    addresses_concerns := [.hyperpigmentation, .dullness, .aging]
    caution_skin_types := []
    description := "Stable forms of vitamin C, gentler but less potent than L-ascorbic acid."
    how_it_works := "Convert to ascorbic acid in the skin. More stable and less irritating."
    usage_tips := ["Great for sensitive skin", "Can be used with niacinamide without issues"]
    beginner_friendly := true }

/-- Catalog entry `niacinamide`. -/
def niacinamideIng : Ingredient :=
  { id := "niacinamide", name := "Niacinamide", category := .niacinamide
    aliases := ["vitamin b3", "nicotinamide"]
    optimal_ph := some (50, 70), water_soluble := true
    time_of_day := .amAndPm, application_order := 4
    addresses_concerns := [.pores, .oiliness, .redness, .hyperpigmentation, .aging]
    caution_skin_types := []
    description := "Versatile ingredient that regulates oil, reduces pores, and brightens."
    how_it_works := "Supports skin barrier, regulates sebum production, and inhibits melanin transfer."
    usage_tips := ["Works well with most ingredients",
      "Can cause flushing if used with pure vitamin C at high concentrations",
      "5% is effective for most benefits"]
    beginner_friendly := true
    max_concentration := some "10% max; 5% is usually sufficient" }

/-- Catalog entry `hyaluronic_acid`. -/
def hyaluronicIng : Ingredient :=
  { id := "hyaluronic_acid", name := "Hyaluronic Acid", category := .hyaluronicAcid
    aliases := ["ha", "sodium hyaluronate", "hyaluronan"]
    optimal_ph := some (50, 70), water_soluble := true
    time_of_day := .amAndPm, application_order := 3
    addresses_concerns := [.dryness, .aging, .dullness]
    caution_skin_types := []
    description := "Powerful humectant that holds up to 1000x its weight in water."
    how_it_works := "Draws moisture from the environment into the skin, plumping and hydrating."
    usage_tips := ["Apply to damp skin for best results",
      "Follow with moisturizer to seal in hydration",
      "In dry climates, can draw moisture OUT of skin - always seal with moisturizer"]
    beginner_friendly := true }

/-- Catalog entry `benzoyl_peroxide`. -/
def benzoylIng : Ingredient :=
  { id := "benzoyl_peroxide", name := "Benzoyl Peroxide", category := .benzoylPeroxide
    aliases := ["bp", "bpo"]
    optimal_ph := some (40, 60), water_soluble := true
    time_of_day := .amOrPm, application_order := 5
    addresses_concerns := [.acne]
    caution_skin_types := [.sensitive, .dry]
    description := "Antibacterial that kills acne-causing bacteria."
    how_it_works := "Releases oxygen into pores, killing P. acnes bacteria. Also mildly exfoliating."
    usage_tips := ["2.5% is as effective as 10% with less irritation",
      "Bleaches fabrics - use white towels and pillowcases",
      "Can be very drying - start slow"]
    beginner_friendly := true
    max_concentration := some "2.5% recommended; 10% max OTC" }

/-- Catalog entry `azelaic_acid`. -/
def azelaicIng : Ingredient :=
  { id := "azelaic_acid", name := "Azelaic Acid", category := .azelaicAcid
    aliases := ["azelaic"]
    optimal_ph := some (45, 55), water_soluble := true
    time_of_day := .amOrPm, application_order := 5
    addresses_concerns := [.acne, .hyperpigmentation, .redness, .texture]
    caution_skin_types := []
    description := "Gentle multitasker safe for pregnancy and sensitive skin."
    how_it_works := "Antibacterial, anti-inflammatory, and inhibits melanin production."
    usage_tips := ["Safe during pregnancy", "Great for rosacea",
      "Can be used with most other actives"]
    beginner_friendly := true
    max_concentration := some "10% OTC, 15-20% prescription" }

/-- Catalog entry `peptides`. -/
def peptidesIng : Ingredient :=
  { id := "peptides", name := "Peptides", category := .peptide
    aliases := ["matrixyl", "argireline", "copper peptides", "palmitoyl"]
    optimal_ph := some (50, 70), water_soluble := true
    time_of_day := .amAndPm, application_order := 5
    addresses_concerns := [.aging, .texture]
    caution_skin_types := []
    description := "Amino acid chains that signal skin to produce more collagen."
    how_it_works := "Act as messengers, telling skin cells to perform specific functions like collagen production."
    usage_tips := ["Most effective with consistent long-term use",
      "Don't use with strong acids (deactivates them)"]
    beginner_friendly := true }

/-- Catalog entry `ceramides`. -/
def ceramidesIng : Ingredient :=
  { id := "ceramides", name := "Ceramides", category := .ceramide
    aliases := ["ceramide np", "ceramide ap", "ceramide eop"]
    optimal_ph := some (50, 70), water_soluble := false
    time_of_day := .amAndPm, application_order := 7
    addresses_concerns := [.dryness, .sensitivity, .aging]
    caution_skin_types := []
    description := "Lipids that form the skin barrier, essential for healthy skin."
    how_it_works := "Replenish the skin's natural lipid barrier, preventing moisture loss."
    usage_tips := ["Essential for anyone using actives",
      "Look for products with multiple ceramide types",
      "Works synergistically with cholesterol and fatty acids"]
    beginner_friendly := true }

/-- Catalog entry `spf`. -/
def spfIng : Ingredient :=
  { id := "spf", name := "Sunscreen (SPF)", category := .spf
    aliases := ["sunscreen", "sun protection", "sunblock"]
    water_soluble := false
    time_of_day := .amOnly, application_order := 10
    addresses_concerns := [.aging, .hyperpigmentation]
    caution_skin_types := []
    description := "The most important anti-aging product. Prevents UV damage."
    how_it_works := "Physical blockers reflect UV; chemical filters absorb and convert UV to heat."
    usage_tips := ["Apply as LAST step of skincare, before makeup",
      "Use 1/4 teaspoon for face", "Reapply every 2 hours when exposed to sun"]
    beginner_friendly := true }

/-- Catalog entry `squalane`. -/
def squalaneIng : Ingredient :=
  { id := "squalane", name := "Squalane", category := .oil
    aliases := ["squalene", "olive squalane", "sugarcane squalane"]
    water_soluble := false
    time_of_day := .amAndPm, application_order := 8
    addresses_concerns := [.dryness, .aging, .sensitivity]
    caution_skin_types := []
    description := "Lightweight oil that mimics skin's natural sebum. Non-comedogenic."
    how_it_works := "Identical to squalene naturally produced by skin, so it absorbs easily and reinforces the lipid barrier."
    usage_tips := ["Can be mixed with moisturizer or applied alone",
      "Great for sealing in hydration after water-based serums",
      "Safe for acne-prone skin despite being an oil"]
    beginner_friendly := true }

/-- Catalog entry `tranexamic_acid`. -/
def tranexamicIng : Ingredient :=
  { id := "tranexamic_acid", name := "Tranexamic Acid", category := .other
    aliases := ["txa", "tranexamic"]
    optimal_ph := some (45, 65), water_soluble := true
    time_of_day := .amAndPm, application_order := 4
    addresses_concerns := [.hyperpigmentation, .redness, .dullness]
    caution_skin_types := []
    description := "Brightening ingredient that targets stubborn pigmentation and melasma."
    how_it_works := "Interrupts the pathway between UV exposure and melanin production. Also reduces redness."
    usage_tips := ["Pairs well with vitamin C and niacinamide",
      "Safe for long-term use", "Particularly effective for melasma"]
    beginner_friendly := true }

/-- Catalog entry `alpha_arbutin`. -/
def arbutinIng : Ingredient :=
  { id := "alpha_arbutin", name := "Alpha Arbutin", category := .other
    aliases := ["arbutin", "α-arbutin"]
    optimal_ph := some (35, 65), water_soluble := true
    time_of_day := .amAndPm, application_order := 4
    addresses_concerns := [.hyperpigmentation, .dullness]
    caution_skin_types := []
    description := "Gentle brightening agent derived from bearberry. Safer alternative to hydroquinone."
    how_it_works := "Inhibits tyrosinase enzyme, reducing melanin production without irritation."
    usage_tips := ["Works best at 1-2% concentration", "Synergizes with vitamin C",
      "Results visible after 2-3 months of consistent use"]
    beginner_friendly := true }

/-- Catalog entry `centella`. -/
def centellaIng : Ingredient :=
  { id := "centella", name := "Centella Asiatica", category := .other
    aliases := ["cica", "tiger grass", "gotu kola", "madecassoside", "asiaticoside"]
    water_soluble := true
    time_of_day := .amAndPm, application_order := 5
    addresses_concerns := [.sensitivity, .redness, .acne, .aging]
    caution_skin_types := []
    description := "Calming, healing ingredient popular in K-beauty. Great for damaged skin barrier."
    how_it_works := "Contains madecassoside and asiaticoside that promote collagen synthesis and wound healing."
    usage_tips := ["Excellent for post-procedure recovery",
      "Pairs well with almost everything",
      "Look for products with multiple centella compounds"]
    beginner_friendly := true }

/-- Catalog entry `bakuchiol`. -/
def bakuchiolIng : Ingredient :=
  { id := "bakuchiol", name := "Bakuchiol", category := .other
    aliases := ["natural retinol alternative"]
    water_soluble := false
    time_of_day := .amAndPm, application_order := 6
    addresses_concerns := [.aging, .texture, .hyperpigmentation]
    caution_skin_types := []
    description := "Plant-based retinol alternative. Same benefits without irritation or sun sensitivity."
    how_it_works := "Activates similar genes as retinol, stimulating collagen production and cell turnover."
    usage_tips := ["Can be used during pregnancy (unlike retinol)",
      "Safe to use in AM without sun sensitivity",
      "Can be combined with retinol for enhanced effects"]
    beginner_friendly := true }

/-- Catalog entry `tea_tree`. -/
def teaTreeIng : Ingredient :=
  { id := "tea_tree", name := "Tea Tree Oil", category := .oil
    aliases := ["melaleuca", "tea tree", "melaleuca alternifolia"]
    water_soluble := false
    time_of_day := .pmOnly, application_order := 5
    addresses_concerns := [.acne, .oiliness]
    caution_skin_types := [.sensitive, .dry]
    description := "Natural antibacterial oil effective for acne spot treatment."
    how_it_works := "Contains terpinen-4-ol which has antimicrobial properties that kill acne-causing bacteria."
    usage_tips := ["Never use undiluted - always at 5% or less concentration",
      "Best as spot treatment, not all-over",
      "Can be drying - follow with moisturizer"]
    beginner_friendly := true
    max_concentration := some "5% max for leave-on products" }

/-- Catalog entry `kojic_acid`. -/
def kojicIng : Ingredient :=
  { id := "kojic_acid", name := "Kojic Acid", category := .other
    aliases := ["kojic"]
    optimal_ph := some (45, 55), water_soluble := true
    time_of_day := .pmOnly, application_order := 4
    addresses_concerns := [.hyperpigmentation, .dullness]
    caution_skin_types := [.sensitive]
    description := "Potent brightening agent derived from fungi. Effective for stubborn dark spots."
    how_it_works := "Inhibits tyrosinase enzyme and chelates copper required for melanin production."
    usage_tips := ["Can cause irritation - introduce slowly",
      "Often combined with other brighteners for enhanced effect",
      "Unstable in light - use PM only and store properly"]
    beginner_friendly := false
    max_concentration := some "1-4% in most products" }

/-- Catalog entry `mandelic_acid`. -/
def mandelicIng : Ingredient :=
  { id := "mandelic_acid", name := "Mandelic Acid", category := .aha
    aliases := ["mandelic"]
    optimal_ph := some (30, 40), water_soluble := true
    time_of_day := .pmOnly, application_order := 4
    addresses_concerns := [.texture, .acne, .hyperpigmentation, .aging]
    caution_skin_types := []
    description := "Gentlest AHA due to large molecule size. Great for sensitive skin and darker skin tones."
    how_it_works := "Larger molecule penetrates slowly and evenly, reducing irritation risk while still exfoliating."
    usage_tips := ["Best AHA for sensitive skin and beginners",
      "Safe for darker skin tones - lower risk of post-inflammatory hyperpigmentation",
      "Also has antibacterial properties for acne"]
    beginner_friendly := true
    max_concentration := some "Up to 10% for regular use" }

/-- Catalog entry `pha`. -/
def phaIng : Ingredient :=
  { id := "pha", name := "PHAs (Polyhydroxy Acids)", category := .aha
    aliases := ["gluconolactone", "lactobionic acid", "polyhydroxy acid"]
    optimal_ph := some (35, 45), water_soluble := true
    time_of_day := .amOrPm, application_order := 4
    addresses_concerns := [.texture, .dryness, .sensitivity, .aging]
    caution_skin_types := []
    description := "Gentlest exfoliating acids. Humectant properties make them hydrating while exfoliating."
    how_it_works := "Largest molecule size of all hydroxy acids. Exfoliate surface only while attracting moisture."
    usage_tips := ["Can be used daily by most skin types",
      "Great alternative if AHAs/BHAs are too irritating",
      "Antioxidant properties provide additional benefits"]
    beginner_friendly := true }

/-- Catalog entry `zinc`. -/
def zincIng : Ingredient :=
  { id := "zinc", name := "Zinc", category := .other
    aliases := ["zinc oxide", "zinc pca", "zinc sulfate", "zinc gluconate"]
    water_soluble := true
    time_of_day := .amAndPm, application_order := 5
    addresses_concerns := [.acne, .oiliness, .redness, .sensitivity]
    caution_skin_types := [.dry]
    description := "Anti-inflammatory mineral that controls oil and soothes irritation."
    how_it_works := "Regulates sebum production, has antimicrobial properties, and supports wound healing."
    usage_tips := ["Zinc oxide in sunscreen provides physical UV protection",
      "Zinc PCA specifically targets oil control",
      "Can be drying - pair with hydrating ingredients"]
    beginner_friendly := true }

/-- Catalog entry `rosehip_oil`. -/
def rosehipIng : Ingredient :=
  { id := "rosehip_oil", name := "Rosehip Oil", category := .oil
    aliases := ["rosehip seed oil", "rosa canina"]
    water_soluble := false
    time_of_day := .pmOnly, application_order := 9
    addresses_concerns := [.aging, .hyperpigmentation, .dryness, .texture]
    caution_skin_types := [.oily]
    description := "Nutrient-rich oil high in vitamin A and essential fatty acids."
    how_it_works := "Contains natural retinoids (trans-retinoic acid) and linoleic acid for regeneration."
    usage_tips := ["Best used at night as final step",
      "Can oxidize - store in dark, cool place",
      "A little goes a long way - 2-3 drops is enough"]
    beginner_friendly := true }

/-- Catalog entry `vitamin_e`. -/
def vitaminEIng : Ingredient :=
  { id := "vitamin_e", name := "Vitamin E", category := .other
    aliases := ["tocopherol", "tocopheryl acetate", "alpha-tocopherol"]
    water_soluble := false
    time_of_day := .amAndPm, application_order := 6
    addresses_concerns := [.dryness, .aging, .sensitivity]
    caution_skin_types := [.oily]
    description := "Antioxidant that protects skin from free radicals and supports barrier function."
    how_it_works := "Neutralizes free radicals from UV and pollution. Enhances moisturizer effectiveness."
    usage_tips := ["Works synergistically with vitamin C - stabilizes it",
      "Can be comedogenic for some - patch test first",
      "Often found in moisturizers and sunscreens"]
    beginner_friendly := true }

/-- Catalog entry `allantoin`. -/
def allantoinIng : Ingredient :=
  { id := "allantoin", name := "Allantoin", category := .other
    aliases := []
    water_soluble := true
    time_of_day := .amAndPm, application_order := 5
    addresses_concerns := [.sensitivity, .dryness, .redness, .texture]
    caution_skin_types := []
    description := "Ultra-gentle soothing ingredient that promotes skin healing."
    how_it_works := "Stimulates cell proliferation and has keratolytic properties for gentle exfoliation."
    usage_tips := ["Found in many sensitive skin products",
      "Safe for all skin types including babies",
      "Helps other ingredients penetrate better"]
    beginner_friendly := true }

/-- The ingredients in `add_ingredient` order. -/
def catalogIngredients : List Ingredient :=
  [retinolIng, glycolicIng, lacticIng, salicylicIng, vitaminCIng, vitCDerivIng,
    niacinamideIng, hyaluronicIng, benzoylIng, azelaicIng, peptidesIng,
    ceramidesIng, spfIng, squalaneIng, tranexamicIng, arbutinIng, centellaIng,
    bakuchiolIng, teaTreeIng, kojicIng, mandelicIng, phaIng, zincIng,
    rosehipIng, vitaminEIng, allantoinIng]

/-- The interaction records in `add_interaction` order. -/
def catalogInteractions : List Interaction :=
  [ { ingredient_a := "tea_tree", ingredient_b := "benzoyl_peroxide"
      interaction_type := .caution, severity := 6
      explanation := "Both are antibacterial and drying. Using together may over-dry and irritate skin."
      recommendation := "Choose one or the other for acne treatment, not both." },
    { ingredient_a := "tea_tree", ingredient_b := "retinol"
      interaction_type := .caution, severity := 5
      explanation := "Both can be irritating. Tea tree's essential oils may increase sensitivity."
      recommendation := "Use on alternating nights if combining." },
    { ingredient_a := "kojic_acid", ingredient_b := "vitamin_c"
      interaction_type := .synergizes, severity := 1
      explanation := "Both target pigmentation through different mechanisms. Enhanced brightening effect."
      recommendation := "Powerful combination for stubborn dark spots." },
    { ingredient_a := "kojic_acid", ingredient_b := "retinol"
      interaction_type := .caution, severity := 6
      explanation := "Both can be irritating. Combining may compromise skin barrier."
      recommendation := "Use on alternate nights, not together." },
    { ingredient_a := "mandelic_acid", ingredient_b := "retinol"
      interaction_type := .caution, severity := 5
      explanation := "Both exfoliate but mandelic is gentler than other AHAs with retinol."
      recommendation := "More tolerable than glycolic + retinol, but still use caution. Alternate nights recommended." },
    { ingredient_a := "mandelic_acid", ingredient_b := "niacinamide"
      interaction_type := .synergizes, severity := 1
      explanation := "Niacinamide soothes while mandelic exfoliates gently."
      recommendation := "Great combination for acne-prone sensitive skin." },
    { ingredient_a := "pha", ingredient_b := "retinol"
      interaction_type := .synergizes, severity := 2
      explanation := "PHAs are gentle enough to use with retinol and provide hydration."
      recommendation := "Safest hydroxy acid to combine with retinol." },
    { ingredient_a := "pha", ingredient_b := "vitamin_c"
      interaction_type := .synergizes, severity := 1
      explanation := "PHAs work at compatible pH and won't destabilize vitamin C."
      recommendation := "Can be layered together for brightening and exfoliation." },
    { ingredient_a := "vitamin_e", ingredient_b := "vitamin_c"
      interaction_type := .synergizes, severity := 1
      explanation := "Vitamin E stabilizes vitamin C and enhances its antioxidant effects by 4x."
      recommendation := "Look for products combining both, or layer them." },
    { ingredient_a := "vitamin_e", ingredient_b := "retinol"
      interaction_type := .synergizes, severity := 1
      explanation := "Vitamin E's antioxidant properties protect skin while retinol works."
      recommendation := "Apply vitamin E product after retinol to boost moisture and protection." },
    { ingredient_a := "rosehip_oil", ingredient_b := "retinol"
      interaction_type := .synergizes, severity := 1
      explanation := "Rosehip contains natural vitamin A that complements retinol. Also moisturizes."
      recommendation := "Apply rosehip oil after retinol to buffer irritation." },
    { ingredient_a := "zinc", ingredient_b := "niacinamide"
      interaction_type := .synergizes, severity := 1
      explanation := "Both control oil and reduce inflammation. Common pairing in acne products."
      recommendation := "Excellent combination for oily, acne-prone skin." },
    { ingredient_a := "allantoin", ingredient_b := "retinol"
      interaction_type := .synergizes, severity := 1
      explanation := "Allantoin soothes irritation from retinol while promoting healing."
      recommendation := "Great supporting ingredient in retinol formulations." },
    { ingredient_a := "squalane", ingredient_b := "retinol"
      interaction_type := .synergizes, severity := 1
      explanation := "Squalane buffers retinol's irritation while helping it penetrate. Great for sensitive skin using retinoids."
      recommendation := "Apply retinol first, then seal with squalane." },
    { ingredient_a := "squalane", ingredient_b := "hyaluronic_acid"
      interaction_type := .synergizes, severity := 1
      explanation := "HA pulls in moisture, squalane locks it in. Perfect hydration combo."
      recommendation := "Apply HA to damp skin, follow with squalane." },
    { ingredient_a := "tranexamic_acid", ingredient_b := "vitamin_c"
      interaction_type := .synergizes, severity := 1
      explanation := "Both target pigmentation through different mechanisms. Enhanced brightening."
      recommendation := "Excellent combination for hyperpigmentation. Layer vitamin C first." },
    { ingredient_a := "tranexamic_acid", ingredient_b := "niacinamide"
      interaction_type := .synergizes, severity := 1
      explanation := "Niacinamide inhibits melanosome transfer while TXA blocks melanin production."
      recommendation := "Powerful brightening duo. Can be used together daily." },
    { ingredient_a := "alpha_arbutin", ingredient_b := "vitamin_c"
      interaction_type := .synergizes, severity := 1
      explanation := "Target pigmentation via different pathways. Arbutin is gentle enough to pair with actives."
      recommendation := "Use together in AM routine for maximum brightening." },
    { ingredient_a := "centella", ingredient_b := "retinol"
      interaction_type := .synergizes, severity := 1
      explanation := "Centella soothes irritation from retinol while promoting healing."
      recommendation := "Apply centella product after retinol to buffer irritation." },
    { ingredient_a := "bakuchiol", ingredient_b := "retinol"
      interaction_type := .synergizes, severity := 1
      explanation := "Studies show combining them enhances anti-aging effects beyond either alone."
      recommendation := "Can be layered together for experienced users, or use bakuchiol in AM and retinol in PM." },
    { ingredient_a := "bakuchiol", ingredient_b := "vitamin_c"
      interaction_type := .synergizes, severity := 1
      explanation := "Unlike retinol, bakuchiol is stable with vitamin C and doesn't cause pH conflicts."
      recommendation := "Great daytime anti-aging combination." },
    { ingredient_a := "retinol", ingredient_b := "glycolic_acid"
      interaction_type := .conflicts, severity := 8
      explanation := "Both increase cell turnover and can severely irritate skin when combined. Risk of redness, peeling, and damaged skin barrier."
      recommendation := "Use on alternate nights. Example: retinol Mon/Wed/Fri, glycolic Tue/Sat." },
    { ingredient_a := "retinol", ingredient_b := "lactic_acid"
      interaction_type := .conflicts, severity := 7
      explanation := "Both exfoliating agents that can cause irritation when combined."
      recommendation := "Use on alternate nights." },
    { ingredient_a := "retinol", ingredient_b := "salicylic_acid"
      interaction_type := .caution, severity := 5
      explanation := "Can be used together by experienced users, but may cause dryness and irritation."
      recommendation := "If combining, use salicylic in AM and retinol in PM, or start very slowly." },
    { ingredient_a := "retinol", ingredient_b := "vitamin_c"
      interaction_type := .requiresWaiting, severity := 4
      wait_minutes := some 30
      explanation := "Different optimal pH levels. Vitamin C needs acidic environment (pH 3), retinol works best at pH 5.5-6."
      recommendation := "Use vitamin C in AM, retinol in PM. Or wait 30 minutes between applications." },
    { ingredient_a := "retinol", ingredient_b := "benzoyl_peroxide"
      interaction_type := .deactivates, severity := 9
      explanation := "Benzoyl peroxide oxidizes and deactivates retinol, making both less effective."
      recommendation := "Never use together. Use BP in AM, retinol in PM, or on alternate days." },
    { ingredient_a := "retinol", ingredient_b := "niacinamide"
      interaction_type := .synergizes, severity := 1
      explanation := "Niacinamide helps reduce the irritation from retinol while both work on similar concerns."
      recommendation := "Great combination! Apply niacinamide first, then retinol." },
    { ingredient_a := "retinol", ingredient_b := "hyaluronic_acid"
      interaction_type := .synergizes, severity := 1
      explanation := "Hyaluronic acid provides hydration that counteracts retinol's drying effects."
      recommendation := "Apply hyaluronic acid to damp skin, follow with retinol." },
    { ingredient_a := "vitamin_c", ingredient_b := "niacinamide"
      interaction_type := .caution, severity := 3
      explanation := "Old studies suggested they cancel out, but modern research shows this is largely a myth. However, high concentrations of both may cause flushing."
      recommendation := "Can use together. If you experience flushing, apply vitamin C in AM and niacinamide in PM." },
    { ingredient_a := "vitamin_c", ingredient_b := "spf"
      interaction_type := .synergizes, severity := 1
      explanation := "Vitamin C boosts sunscreen effectiveness by neutralizing free radicals that UV rays generate."
      recommendation := "Perfect morning combination! Vitamin C first, then sunscreen." },
    { ingredient_a := "vitamin_c", ingredient_b := "vitamin_c_derivative"
      interaction_type := .caution, severity := 2
      explanation := "No need to use both - they serve the same purpose."
      recommendation := "Pick one. L-ascorbic acid is more potent; derivatives are gentler." },
    { ingredient_a := "glycolic_acid", ingredient_b := "salicylic_acid"
      interaction_type := .caution, severity := 6
      explanation := "Both are exfoliants. Using together increases irritation risk significantly."
      recommendation := "Use on different days, or choose one based on your primary concern (texture vs. acne)." },
    { ingredient_a := "glycolic_acid", ingredient_b := "lactic_acid"
      interaction_type := .caution, severity := 5
      explanation := "Both are AHAs - using together is usually unnecessary and increases irritation."
      recommendation := "Choose one. Glycolic for deeper exfoliation, lactic for gentler + hydration." },
    { ingredient_a := "benzoyl_peroxide", ingredient_b := "vitamin_c"
      interaction_type := .deactivates, severity := 8
      explanation := "Benzoyl peroxide oxidizes vitamin C, rendering both less effective."
      recommendation := "Use at different times of day. Vitamin C in AM, BP in PM." },
    { ingredient_a := "peptides", ingredient_b := "glycolic_acid"
      interaction_type := .caution, severity := 5
      explanation := "Strong acids can break down peptide chains, reducing their effectiveness."
      recommendation := "Apply acid first, wait 20-30 minutes for pH to normalize, then apply peptides." },
    { ingredient_a := "peptides", ingredient_b := "vitamin_c"
      interaction_type := .caution, severity := 4
      explanation := "The acidic pH of L-ascorbic acid can destabilize some peptides."
      recommendation := "Use at different times of day, or use vitamin C derivatives instead." },
    { ingredient_a := "hyaluronic_acid", ingredient_b := "niacinamide"
      interaction_type := .synergizes, severity := 1
      explanation := "Both are hydrating and work at similar pH levels. Niacinamide strengthens barrier while HA hydrates."
      recommendation := "Excellent combination for all skin types." },
    { ingredient_a := "hyaluronic_acid", ingredient_b := "ceramides"
      interaction_type := .synergizes, severity := 1
      explanation := "HA pulls in moisture, ceramides lock it in. Perfect moisture-barrier support."
      recommendation := "Apply HA to damp skin, follow with ceramide moisturizer." },
    { ingredient_a := "niacinamide", ingredient_b := "salicylic_acid"
      interaction_type := .synergizes, severity := 1
      explanation := "Niacinamide calms and regulates oil while BHA clears pores. Great for acne."
      recommendation := "Can be layered or found together in products." },
    { ingredient_a := "azelaic_acid", ingredient_b := "niacinamide"
      interaction_type := .synergizes, severity := 1
      explanation := "Both target hyperpigmentation and work at compatible pH levels."
      recommendation := "Excellent combination for brightening and evening skin tone." } ]

/-- The knowledge base built by `create_skincare_knowledge_base`. -/
def skincareKB : KnowledgeGraph :=
  { ingredientsList := catalogIngredients, interactions := catalogInteractions }

/-! ### Basic facts about the graph operations -/

/-- The undirected edge lookup ignores the order of its endpoints. -/
theorem edgeInteraction_symm (kb : KnowledgeGraph) (x y : String) :
    edgeInteraction kb x y = edgeInteraction kb y x := by
  unfold edgeInteraction
  congr 1
  refine List.filter_congr fun e _ => ?_
  exact Bool.or_comm _ _

/-- Every catalog id resolves to itself (the id is indexed under itself,
lower-cased, and no later registration overwrites it). -/
theorem resolveAlias_id_fix :
    ∀ x ∈ catalogIngredients, resolveAlias skincareKB x.id = x.id := by decide

/-- `resolveAlias` is idempotent on identifiers that resolve into the
catalog. -/
theorem resolveAlias_idem {s : String}
    (h : (idLookup skincareKB (resolveAlias skincareKB s)).isSome = true) :
    resolveAlias skincareKB (resolveAlias skincareKB s) =
      resolveAlias skincareKB s := by
  rcases List.find?_isSome.mp h with ⟨x, hx, hid⟩
  have hxid : x.id = resolveAlias skincareKB s := by
    simpa [beq_iff_eq] using hid
  calc resolveAlias skincareKB (resolveAlias skincareKB s)
      = resolveAlias skincareKB x.id := by rw [hxid]
    _ = x.id := resolveAlias_id_fix x hx
    _ = resolveAlias skincareKB s := hxid

/-- `check_compatibility` on a two-element list of catalog-resolvable
identifiers is one pass of the pair loop over the resolved pair. -/
theorem check_compatibility_pair {a b : String}
    (ha : (idLookup skincareKB (resolveAlias skincareKB a)).isSome = true)
    (hb : (idLookup skincareKB (resolveAlias skincareKB b)).isSome = true) :
    check_compatibility skincareKB [a, b] =
      processPair skincareKB {}
        (resolveAlias skincareKB a, resolveAlias skincareKB b) := by
  unfold check_compatibility normalizeIds
  simp only [List.filterMap_cons, List.filterMap_nil, ha, hb, if_pos,
    pairsOf, List.map, List.append_nil, List.foldl]

/-! ### Claim theorems: C6, C1 -/

/-- C6: for every pair of identifiers `a` and `b`,
`get_interaction(a,b) = get_interaction(b,a)` — the lookup resolves each
argument separately and reads an undirected edge, so it is symmetric. -/
theorem C6_get_interaction_symm (a b : String) :
    get_interaction skincareKB a b = get_interaction skincareKB b a :=
  edgeInteraction_symm _ _ _

/-- C1: for catalog-resolvable identifiers, an explicit interaction of kind
`conflicts` or `deactivates` makes `check_compatibility [a, b]` report
`is_compatible = false` with exactly that pair — resolved display names,
severity, explanation and recommendation — in the `conflicts` bucket, while
kinds `caution`, `synergizes` and `requires_waiting` leave
`is_compatible = true`. -/
theorem C1_conflict_pair_incompatible (a b : String) (i : Interaction)
    (ha : (idLookup skincareKB (resolveAlias skincareKB a)).isSome = true)
    (hb : (idLookup skincareKB (resolveAlias skincareKB b)).isSome = true)
    (hi : get_interaction skincareKB a b = some i) :
    ((i.interaction_type = .conflicts ∨ i.interaction_type = .deactivates) →
      (check_compatibility skincareKB [a, b]).is_compatible = false ∧
        (check_compatibility skincareKB [a, b]).conflicts =
          [{ ingredient_a := nameOf skincareKB (resolveAlias skincareKB a)
             ingredient_b := nameOf skincareKB (resolveAlias skincareKB b)
             explanation := i.explanation
             recommendation := i.recommendation
             severity := i.severity }]) ∧
    ((i.interaction_type = .caution ∨ i.interaction_type = .synergizes ∨
        i.interaction_type = .requiresWaiting) →
      (check_compatibility skincareKB [a, b]).is_compatible = true) := by
  have hget : get_interaction skincareKB (resolveAlias skincareKB a)
      (resolveAlias skincareKB b) = some i := by
    unfold get_interaction at hi ⊢
    rw [resolveAlias_idem ha, resolveAlias_idem hb]
    exact hi
  rw [check_compatibility_pair ha hb]
  unfold processPair
  rw [hget]
  constructor
  · rintro (ht | ht) <;> simp [ht]
  · rintro (ht | ht | ht) <;> simp [ht]

/-- Witness for C1 at a concrete resolvable pair: the alias "Vitamin A"
resolves to retinol, "glycolic" to glycolic acid, their interaction has kind
`conflicts`, and the compatibility report is incompatible with the pair in
the conflicts bucket. -/
theorem C1_conflict_pair_incompatible_witness :
    (check_compatibility skincareKB ["Vitamin A", "glycolic"]).is_compatible
        = false ∧
      (check_compatibility skincareKB ["Vitamin A", "glycolic"]).conflicts.length
        = 1 := by
  have hmap : (get_interaction skincareKB "Vitamin A" "glycolic").map
      Interaction.interaction_type = some .conflicts := by decide
  rcases hopt : get_interaction skincareKB "Vitamin A" "glycolic" with _ | i
  · rw [hopt] at hmap; cases hmap
  · have ht : i.interaction_type = .conflicts := by
      rw [hopt] at hmap
      simpa using hmap
    have h := (C1_conflict_pair_incompatible "Vitamin A" "glycolic" i
      (by decide) (by decide) hopt).1 (Or.inl ht)
    exact ⟨h.1, by rw [h.2]; rfl⟩

/-- Prepending keeps the first character. -/
theorem append_head {s : String} (t : String) {c : Char}
    (h : s.data.head? = some c) : (s ++ t).data.head? = some c := by
  rw [String.data_append]
  cases hs : s.data with
  | nil => rw [hs] at h; cases h
  | cons c' l => rw [hs] at h; simpa using h

/-- Strings that start with different characters differ. -/
theorem ne_of_head {s t : String} {c d : Char} (hs : s.data.head? = some c)
    (ht : t.data.head? = some d) (hne : c ≠ d) : s ≠ t := by
  intro h
  rw [h, ht] at hs
  injection hs with h'
  exact hne h'.symm

/-- An identifier that `get_ingredient` resolves also resolves through the
`check_compatibility` normalisation (either it is a catalog id, which
resolves to itself, or the alias index maps it to one). -/
theorem resolvable_of_get_ingredient {s : String} {ing : Ingredient}
    (h : get_ingredient skincareKB s = some ing) :
    (idLookup skincareKB (resolveAlias skincareKB s)).isSome = true := by
  unfold get_ingredient at h
  cases hid : idLookup skincareKB s with
  | some ing' =>
    have hmem := List.mem_of_find?_eq_some hid
    have hpred := List.find?_some hid
    have hids : ing'.id = s := by simpa [beq_iff_eq] using hpred
    have : resolveAlias skincareKB s = s := by
      rw [← hids]; exact resolveAlias_id_fix ing' hmem
    rw [this, hid]; rfl
  | none =>
    simp only [hid] at h
    cases hal : aliasLookup skincareKB (lowerStr s) with
    | none => simp [hal] at h
    | some iid =>
      simp only [hal] at h
      by_cases hiid : iid = ""
      · simp [hiid] at h
      · simp only [if_neg hiid] at h
        have hres : resolveAlias skincareKB s = iid := by
          unfold resolveAlias; rw [hal]; rfl
        rw [hres, h]; rfl

/-- C2: for two catalog-resolvable ingredients with no explicit interaction
record, `explain_interaction` returns the pH-conflict explanation citing both
declared ranges exactly when both ranges exist and are separated by more than
one pH unit, and the generic no-known-interaction text when a range is
missing or the ranges are not so separated (ranges are in tenths of a pH
unit, so "more than one unit" is a gap of more than ten); the pair loop of
`check_compatibility` over the same two identifiers reports no conflict
either way. -/
theorem C2_implicit_ph_check (a b : String) (ing_a ing_b : Ingredient)
    (ha : get_ingredient skincareKB a = some ing_a)
    (hb : get_ingredient skincareKB b = some ing_b)
    (hnone : get_interaction skincareKB a b = none) :
    (∀ pa pb : ℤ × ℤ, ing_a.optimal_ph = some pa → ing_b.optimal_ph = some pb →
      (pa.2 < pb.1 - 10 ∨ pb.2 < pa.1 - 10) →
      explain_interaction skincareKB a b =
          "Potential pH conflict: " ++ ing_a.name ++ " works best at pH " ++
            phRepr pa.1 ++ "-" ++ phRepr pa.2 ++ ", while " ++ ing_b.name ++
            " needs pH " ++ phRepr pb.1 ++ "-" ++ phRepr pb.2 ++
            ". Using together may reduce effectiveness of one or both." ∧
        explain_interaction skincareKB a b ≠ noKnownText ing_a ing_b) ∧
    ((ing_a.optimal_ph = none ∨ ing_b.optimal_ph = none) →
      explain_interaction skincareKB a b = noKnownText ing_a ing_b) ∧
    (∀ pa pb : ℤ × ℤ, ing_a.optimal_ph = some pa → ing_b.optimal_ph = some pb →
      ¬(pa.2 < pb.1 - 10 ∨ pb.2 < pa.1 - 10) →
      explain_interaction skincareKB a b = noKnownText ing_a ing_b) ∧
    ((check_compatibility skincareKB [a, b]).conflicts = [] ∧
      (check_compatibility skincareKB [a, b]).is_compatible = true) := by
  have hexp : ∀ r : Option String,
      check_implicit_conflicts ing_a ing_b = r →
      explain_interaction skincareKB a b = r.getD (noKnownText ing_a ing_b) := by
    intro r hr
    unfold explain_interaction
    rw [ha, hb]
    simp only [hnone]
    rw [hr]
    cases r <;> rfl
  refine ⟨?_, ?_, ?_, ?_⟩
  · intro pa pb hpa hpb hsep
    have hr : check_implicit_conflicts ing_a ing_b = some
        ("Potential pH conflict: " ++ ing_a.name ++ " works best at pH " ++
          phRepr pa.1 ++ "-" ++ phRepr pa.2 ++ ", while " ++ ing_b.name ++
          " needs pH " ++ phRepr pb.1 ++ "-" ++ phRepr pb.2 ++
          ". Using together may reduce effectiveness of one or both.") := by
      unfold check_implicit_conflicts
      rw [hpa, hpb]
      simp only [if_pos hsep]
    refine ⟨hexp _ hr, ?_⟩
    rw [hexp _ hr]
    refine ne_of_head (c := 'P') (d := 'N') ?_ ?_ (by decide)
    · exact append_head _ (append_head _ (append_head _ (append_head _
        (append_head _ (append_head _ (append_head _ (append_head _
          (append_head _ (append_head _ (append_head _ (append_head _
            (by decide))))))))))))
    · exact append_head _ (append_head _ (append_head _ (append_head _
        (by decide))))
  · intro hmiss
    have hr : check_implicit_conflicts ing_a ing_b = none := by
      unfold check_implicit_conflicts
      rcases hmiss with hm | hm
      · rw [hm]
      · rcases hopt : ing_a.optimal_ph with _ | ⟨u, v⟩ <;> rw [hm]
    exact hexp _ hr
  · intro pa pb hpa hpb hsep
    have hr : check_implicit_conflicts ing_a ing_b = none := by
      unfold check_implicit_conflicts
      rw [hpa, hpb]
      simp only [if_neg hsep]
    exact hexp _ hr
  · have hra := resolvable_of_get_ingredient ha
    have hrb := resolvable_of_get_ingredient hb
    have hget : get_interaction skincareKB (resolveAlias skincareKB a)
        (resolveAlias skincareKB b) = none := by
      unfold get_interaction at hnone ⊢
      rw [resolveAlias_idem hra, resolveAlias_idem hrb]
      exact hnone
    rw [check_compatibility_pair hra hrb]
    unfold processPair
    rw [hget]
    exact ⟨rfl, rfl⟩

/-- Witness for C2: vitamin C (pH 2.5-3.5) and ceramides (pH 5.0-7.0) have no
explicit record and ranges more than one unit apart, so the explanation is
the pH-conflict text; niacinamide and ceramides overlap, giving the generic
text; neither pair contributes a conflict to `check_compatibility`. -/
theorem C2_implicit_ph_check_witness :
    explain_interaction skincareKB "vitamin_c" "ceramides" =
        "Potential pH conflict: Vitamin C (L-Ascorbic Acid) works best at pH 2.5-3.5, while Ceramides needs pH 5.0-7.0. Using together may reduce effectiveness of one or both." ∧
      explain_interaction skincareKB "vitamin_c" "ceramides" ≠
        noKnownText vitaminCIng ceramidesIng ∧
      (check_compatibility skincareKB ["vitamin_c", "ceramides"]).is_compatible
        = true := by
  have h := C2_implicit_ph_check "vitamin_c" "ceramides" vitaminCIng
    ceramidesIng (by decide) (by decide) (by decide)
  have h1 := h.1 (25, 35) (50, 70) (by decide) (by decide) (by decide)
  exact ⟨h1.1, h1.2, h.2.2.2.2⟩

/-! ### The incompatibility flag as a property of the id multiset (C3, C4) -/

/-- Whether the pair loop flags this ordered pair (an interaction of kind
`conflicts` or `deactivates`). -/
def pairConflicts (kb : KnowledgeGraph) (x y : String) : Bool :=
  match get_interaction kb x y with
  | some i =>
      i.interaction_type == .conflicts || i.interaction_type == .deactivates
  | none => false

/-- `get_interaction` is symmetric for every graph (the edge set is
undirected). -/
theorem get_interaction_symm (kb : KnowledgeGraph) (a b : String) :
    get_interaction kb a b = get_interaction kb b a :=
  edgeInteraction_symm _ _ _

/-- Conflict flagging is symmetric. -/
theorem pairConflicts_symm (kb : KnowledgeGraph) (x y : String) :
    pairConflicts kb x y = pairConflicts kb y x := by
  unfold pairConflicts
  rw [get_interaction_symm]

/-- No interaction record of the catalog is a self-loop. -/
theorem catalog_edges_ne :
    ∀ e ∈ catalogInteractions, e.ingredient_a ≠ e.ingredient_b := by decide

/-- Looking up an interaction of an identifier with itself finds nothing. -/
theorem get_interaction_self (x : String) :
    get_interaction skincareKB x x = none := by
  unfold get_interaction edgeInteraction
  have hnil : (skincareKB.interactions.filter fun e =>
      (e.ingredient_a == resolveAlias skincareKB x &&
        e.ingredient_b == resolveAlias skincareKB x) ||
      (e.ingredient_a == resolveAlias skincareKB x &&
        e.ingredient_b == resolveAlias skincareKB x)) = [] := by
    rw [List.filter_eq_nil_iff]
    intro e he hbe
    rcases Bool.or_eq_true .. |>.mp hbe with hb | hb <;>
    · rcases Bool.and_eq_true .. |>.mp hb with ⟨h1, h2⟩
      exact catalog_edges_ne e he ((eq_of_beq h1).trans (eq_of_beq h2).symm)
  rw [hnil]
  rfl

/-- A self-pair is never flagged. -/
theorem pairConflicts_self (x : String) :
    pairConflicts skincareKB x x = false := by
  unfold pairConflicts
  rw [get_interaction_self]

/-- One pair-loop step and the incompatibility flag. -/
theorem processPair_is_compatible (kb : KnowledgeGraph) (r : CompatReport)
    (p : String × String) :
    (processPair kb r p).is_compatible =
      (r.is_compatible && !pairConflicts kb p.1 p.2) := by
  unfold processPair pairConflicts
  cases hgi : get_interaction kb p.1 p.2 with
  | none => simp
  | some i => cases htype : i.interaction_type <;> simp [htype]

/-- The pair loop leaves `is_compatible` true exactly when no processed pair
is flagged. -/
theorem foldl_is_compatible (kb : KnowledgeGraph)
    (ps : List (String × String)) (r : CompatReport) :
    (ps.foldl (processPair kb) r).is_compatible =
      (r.is_compatible && ps.all fun p => !pairConflicts kb p.1 p.2) := by
  induction ps generalizing r with
  | nil => simp
  | cons p ps ih =>
    rw [List.foldl_cons, ih, processPair_is_compatible]
    simp [Bool.and_assoc]

/-- The incompatibility flag of `check_compatibility` is the conjunction of
the pair checks over the normalised list. -/
theorem check_compatibility_flag (kb : KnowledgeGraph) (l : List String) :
    (check_compatibility kb l).is_compatible =
      ((pairsOf (normalizeIds kb l)).all fun p => !pairConflicts kb p.1 p.2) := by
  unfold check_compatibility
  rw [foldl_is_compatible]
  rfl

/-- For a symmetric relation that never relates an element to itself, the
pair-loop conjunction over `i < j` pairs says exactly that no two members of
the list are related. -/
theorem pairsOf_all_iff {α : Type} {f : α → α → Bool}
    (hsymm : ∀ x y, f x y = f y x) (hirr : ∀ x, f x x = false) :
    ∀ l : List α,
      (((pairsOf l).all fun p => !f p.1 p.2) = true ↔
        ∀ x ∈ l, ∀ y ∈ l, f x y = false) := by
  intro l
  induction l with
  | nil => simp [pairsOf]
  | cons a l ih =>
    simp only [pairsOf, List.all_append, Bool.and_eq_true]
    have hmap : ((l.map fun y => (a, y)).all fun p => !f p.1 p.2) = true ↔
        ∀ y ∈ l, f a y = false := by
      rw [List.all_eq_true]
      constructor
      · intro hh y hy
        simpa using hh (a, y) (List.mem_map_of_mem _ hy)
      · intro hh p hp
        rcases List.mem_map.mp hp with ⟨y, hy, rfl⟩
        simpa using hh y hy
    rw [hmap, ih]
    constructor
    · rintro ⟨h1, h2⟩ x hx y hy
      rcases List.mem_cons.mp hx with hxa | hx
      · rcases List.mem_cons.mp hy with hya | hy
        · rw [hxa, hya]; exact hirr a
        · rw [hxa]; exact h1 y hy
      · rcases List.mem_cons.mp hy with hya | hy
        · rw [hya, hsymm]; exact h1 x hx
        · exact h2 x hx y hy
    · intro h
      exact ⟨fun y hy =>
          h a (List.mem_cons_self a l) y (List.mem_cons_of_mem a hy),
        fun x hx y hy =>
          h x (List.mem_cons_of_mem a hx) y (List.mem_cons_of_mem a hy)⟩

/-- Identifiers surviving normalisation are characterised by membership of
the input list. -/
theorem mem_normalizeIds (kb : KnowledgeGraph) (l : List String) (x : String) :
    x ∈ normalizeIds kb l ↔ ∃ s ∈ l, (idLookup kb (resolveAlias kb s)).isSome ∧
      resolveAlias kb s = x := by
  unfold normalizeIds
  simp only [List.mem_filterMap]
  constructor
  · rintro ⟨s, hs, hf⟩
    by_cases hsome : (idLookup kb (resolveAlias kb s)).isSome
    · simp only [if_pos hsome, Option.some.injEq] at hf
      exact ⟨s, hs, hsome, hf⟩
    · simp only [if_neg hsome] at hf
      cases hf
  · rintro ⟨s, hs, hsome, hx⟩
    refine ⟨s, hs, ?_⟩
    simp only [hx] at hsome ⊢
    simp only [if_pos hsome]

/-- The flag depends only on which identifiers occur in the input list. -/
theorem compat_flag_mem_congr (l₁ l₂ : List String)
    (h : ∀ s, s ∈ l₁ ↔ s ∈ l₂) :
    (check_compatibility skincareKB l₁).is_compatible =
      (check_compatibility skincareKB l₂).is_compatible := by
  rw [check_compatibility_flag, check_compatibility_flag]
  refine Bool.eq_iff_iff.mpr ?_
  rw [pairsOf_all_iff (pairConflicts_symm skincareKB) pairConflicts_self,
    pairsOf_all_iff (pairConflicts_symm skincareKB) pairConflicts_self]
  have hmem : ∀ x, x ∈ normalizeIds skincareKB l₁ ↔
      x ∈ normalizeIds skincareKB l₂ := by
    intro x
    rw [mem_normalizeIds, mem_normalizeIds]
    constructor <;> rintro ⟨s, hs, h1, h2⟩
    · exact ⟨s, (h s).mp hs, h1, h2⟩
    · exact ⟨s, (h s).mpr hs, h1, h2⟩
  constructor <;> intro hP x hx y hy
  · exact hP x ((hmem x).mpr hx) y ((hmem y).mpr hy)
  · exact hP x ((hmem x).mp hx) y ((hmem y).mp hy)

/-- C3 counterexample: `check_compatibility` is not invariant under
permutation of its input — swapping the two ids swaps the resolved names
inside the conflict entry, so the reports differ. -/
theorem C3_counterexample_reports_differ :
    List.Perm ["retinol", "glycolic_acid"] ["glycolic_acid", "retinol"] ∧
      check_compatibility skincareKB ["retinol", "glycolic_acid"] ≠
        check_compatibility skincareKB ["glycolic_acid", "retinol"] := by
  constructor
  · exact List.Perm.swap _ _ _
  · decide

/-- C3 (amended): the `is_compatible` flag of `check_compatibility` is
invariant under permutation of the input list (the bucket lists are not:
their entry order and within-pair orientation follow input order). -/
theorem C3_flag_perm_invariant (l₁ l₂ : List String) (h : l₁.Perm l₂) :
    (check_compatibility skincareKB l₁).is_compatible =
      (check_compatibility skincareKB l₂).is_compatible :=
  compat_flag_mem_congr l₁ l₂ fun _ => h.mem_iff

/-- Witness for C3 (amended) at a concrete permutation. -/
theorem C3_flag_perm_invariant_witness :
    (check_compatibility skincareKB ["retinol", "glycolic_acid"]).is_compatible
      = (check_compatibility skincareKB
          ["glycolic_acid", "retinol"]).is_compatible :=
  C3_flag_perm_invariant _ _ (List.Perm.swap _ _ _)

/-- C4 counterexample: `check_compatibility` does not deduplicate — with a
duplicated id the report differs from the deduplicated list's report, the
conflict entry appearing twice. -/
theorem C4_counterexample_duplicates_duplicate_entries :
    (["retinol", "retinol", "glycolic_acid"].dedup =
        ["retinol", "glycolic_acid"]) ∧
      check_compatibility skincareKB ["retinol", "retinol", "glycolic_acid"] ≠
        check_compatibility skincareKB ["retinol", "glycolic_acid"] ∧
      (check_compatibility skincareKB
        ["retinol", "retinol", "glycolic_acid"]).conflicts.length = 2 ∧
      (check_compatibility skincareKB
        ["retinol", "glycolic_acid"]).conflicts.length = 1 := by
  refine ⟨by decide, by decide, by decide, by decide⟩

/-- C4 (amended): no self-pair ever contributes (`get_interaction` of an id
with itself finds nothing), and the `is_compatible` flag agrees with the
deduplicated list's, but bucket entries are duplicated when input ids repeat,
so the full reports may differ. -/
theorem C4_no_self_pairs_flag_dedup_invariant :
    (∀ x : String, get_interaction skincareKB x x = none) ∧
      ∀ l : List String,
        (check_compatibility skincareKB l).is_compatible =
          (check_compatibility skincareKB l.dedup).is_compatible := by
  refine ⟨get_interaction_self, fun l => ?_⟩
  exact compat_flag_mem_congr l l.dedup fun s => (List.mem_dedup).symm

/-! ### Resolution of ids, names and aliases (C5) -/

/-- The case-folded lookup keys `add_ingredient` registers for an ingredient:
every alias, the display name, and the id. -/
def ingredientKeys (x : Ingredient) : List String :=
  x.aliases.map lowerStr ++ [lowerStr x.name, lowerStr x.id]

/-- The last element of a list is a member. -/
theorem mem_of_getLast?_eq_some {α : Type} {l : List α} {a : α}
    (h : l.getLast? = some a) : a ∈ l := by
  rcases List.mem_getLast?_eq_getLast (show a ∈ l.getLast? from h) with ⟨hne, rfl⟩
  exact List.getLast_mem hne

/-- Catalog fact: every registered key of every ingredient looks up to that
ingredient's id — the catalog has no alias collisions. -/
theorem catalog_keys_resolve :
    ∀ x ∈ catalogIngredients, ∀ k ∈ ingredientKeys x,
      aliasLookup skincareKB k = some x.id := by decide

/-- Catalog fact: every id looks up to its own record. -/
theorem catalog_idLookup :
    ∀ x ∈ catalogIngredients, idLookup skincareKB x.id = some x := by decide

/-- Catalog fact: ids are already lower-case and non-empty. -/
theorem catalog_ids_lower :
    ∀ x ∈ catalogIngredients, lowerStr x.id = x.id ∧ x.id ≠ "" := by decide

/-- Catalog fact: no ingredient's id equals a registered key of a different
ingredient. -/
theorem catalog_ids_no_collision :
    ∀ x ∈ catalogIngredients, ∀ k ∈ ingredientKeys x,
      ∀ y ∈ catalogIngredients, y.id = k → y = x := by decide

/-- A successful alias lookup comes from some ingredient's registered key. -/
theorem aliasLookup_mem {k v : String}
    (h : aliasLookup skincareKB k = some v) :
    ∃ x ∈ catalogIngredients, k ∈ ingredientKeys x := by
  unfold aliasLookup lookupLast at h
  cases hl : ((aliasEntries skincareKB).filter fun p => p.1 == k).getLast? with
  | none => rw [hl] at h; cases h
  | some pair =>
    rw [hl] at h
    have hmemf := mem_of_getLast?_eq_some hl
    have hmem := (List.mem_filter.mp hmemf).1
    have hpred := (List.mem_filter.mp hmemf).2
    have hk : pair.1 = k := eq_of_beq hpred
    unfold aliasEntries at hmem
    rcases List.mem_flatMap.mp hmem with ⟨x, hx, hpx⟩
    refine ⟨x, hx, ?_⟩
    rw [← hk]
    unfold ingredientKeys
    rcases List.mem_append.mp hpx with hpa | hpn
    · rcases List.mem_map.mp hpa with ⟨al, hal, rfl⟩
      exact List.mem_append_left _ (List.mem_map_of_mem _ hal)
    · rcases List.mem_cons.mp hpn with hpe | hpe
      · rw [hpe]
        exact List.mem_append_right _ (List.mem_cons_self _ _)
      · rcases List.mem_cons.mp hpe with hpe2 | hpe2
        · rw [hpe2]
          exact List.mem_append_right _
            (List.mem_cons_of_mem _ (List.mem_cons_self _ _))
        · cases hpe2

/-- C5: for every catalog ingredient, `get_ingredient` applied to any
identifier whose case-folding is the id, the display name or an alias
(case-folded) returns exactly that ingredient, and an identifier matching no
registered key of any ingredient resolves to nothing — no fuzzy matching. -/
theorem C5_resolution (x : Ingredient) (hx : x ∈ skincareKB.ingredientsList) :
    (∀ s : String, lowerStr s ∈ ingredientKeys x →
      get_ingredient skincareKB s = some x) ∧
    (∀ s : String,
      (∀ y ∈ skincareKB.ingredientsList, lowerStr s ∉ ingredientKeys y) →
        get_ingredient skincareKB s = none) := by
  constructor
  · intro s hk
    unfold get_ingredient
    cases hid : idLookup skincareKB s with
    | some y =>
      have hid2 : skincareKB.ingredientsList.find? (fun z => z.id == s)
          = some y := hid
      have hmem := List.mem_of_find?_eq_some hid2
      have hp : (y.id == s) = true := by simpa using List.find?_some hid2
      have hys : y.id = s := eq_of_beq hp
      have hyk : y.id ∈ ingredientKeys x := by
        rw [← (catalog_ids_lower y hmem).1, hys]
        exact hk
      have hyx : y = x := catalog_ids_no_collision x hx y.id hyk y hmem rfl
      rw [hyx]
    | none =>
      have hal := catalog_keys_resolve x hx (lowerStr s) hk
      simp only [hal]
      rw [if_neg (catalog_ids_lower x hx).2]
      exact catalog_idLookup x hx
  · intro s hnone
    unfold get_ingredient
    cases hid : idLookup skincareKB s with
    | some y =>
      have hid2 : skincareKB.ingredientsList.find? (fun z => z.id == s)
          = some y := hid
      have hmem := List.mem_of_find?_eq_some hid2
      have hp : (y.id == s) = true := by simpa using List.find?_some hid2
      have hys : y.id = s := eq_of_beq hp
      exfalso
      refine hnone y hmem ?_
      rw [← hys, (catalog_ids_lower y hmem).1]
      unfold ingredientKeys
      exact List.mem_append_right _
        (List.mem_cons_of_mem _ (by
          rw [(catalog_ids_lower y hmem).1]
          exact List.mem_cons_self _ _))
    | none =>
      cases hal : aliasLookup skincareKB (lowerStr s) with
      | none => simp only [hal]
      | some v =>
        exfalso
        rcases aliasLookup_mem hal with ⟨y, hy, hk⟩
        exact hnone y hy hk

/-- Witness for C5: a case variant of an alias and of the display name of
retinol both resolve to the retinol record, and an identifier that is no
id, name or alias resolves to nothing. -/
theorem C5_resolution_witness :
    get_ingredient skincareKB "VITAMIN A" = some retinolIng ∧
      get_ingredient skincareKB "Retinol" = some retinolIng ∧
      get_ingredient skincareKB "hydroquinone" = none := by
  refine ⟨?_, ?_, ?_⟩
  · exact (C5_resolution retinolIng (by decide)).1 "VITAMIN A" (by decide)
  · exact (C5_resolution retinolIng (by decide)).1 "Retinol" (by decide)
  · exact (C5_resolution retinolIng (by decide)).2 "hydroquinone" (by decide)

/-! ### The recommendation filter (C8) -/

/-- Insertion keeps the elements. -/
theorem insertDesc_perm {α : Type} (key : α → Nat) (x : α) :
    ∀ l : List α, (insertDesc key x l).Perm (x :: l)
  | [] => List.Perm.refl _
  | y :: ys => by
    unfold insertDesc
    by_cases h : key y ≤ key x
    · rw [if_pos h]
    · rw [if_neg h]
      exact ((insertDesc_perm key x ys).cons y).trans (List.Perm.swap x y ys)

/-- The stable descending sort is a permutation of its input. -/
theorem sortByKeyDesc_perm {α : Type} (key : α → Nat) :
    ∀ l : List α, (sortByKeyDesc key l).Perm l
  | [] => List.Perm.refl _
  | a :: l =>
    (insertDesc_perm key a _).trans ((sortByKeyDesc_perm key l).cons a)

/-- Insertion preserves descending order of keys. -/
theorem insertDesc_sorted {α : Type} (key : α → Nat) (x : α) :
    ∀ {l : List α}, l.Pairwise (fun a b => key b ≤ key a) →
      (insertDesc key x l).Pairwise (fun a b => key b ≤ key a) := by
  intro l
  induction l with
  | nil => intro _; simp [insertDesc]
  | cons y ys ih =>
    intro h
    unfold insertDesc
    by_cases hxy : key y ≤ key x
    · rw [if_pos hxy]
      refine List.Pairwise.cons ?_ h
      intro z hz
      rcases List.mem_cons.mp hz with hza | hz2
      · rw [hza]; exact hxy
      · exact le_trans (List.rel_of_pairwise_cons h hz2) hxy
    · rw [if_neg hxy]
      refine List.Pairwise.cons ?_ (ih (List.Pairwise.of_cons h))
      intro z hz
      rcases List.mem_cons.mp
          ((insertDesc_perm key x ys).mem_iff.mp hz) with hza | hz2
      · rw [hza]
        exact le_of_lt (Nat.lt_of_not_le hxy)
      · exact List.rel_of_pairwise_cons h hz2

/-- The stable descending sort sorts by descending key. -/
theorem sortByKeyDesc_sorted {α : Type} (key : α → Nat) :
    ∀ l : List α, (sortByKeyDesc key l).Pairwise (fun a b => key b ≤ key a)
  | [] => List.Pairwise.nil
  | a :: l => insertDesc_sorted key a (sortByKeyDesc_sorted key l)

/-- C8: `get_recommended_ingredients` returns exactly the catalog ingredients
that address one of the profile's concerns, carry no caution for the
profile's skin type, and are not among the profile's sensitivities — as a
permutation of the filtered catalog — sorted descending by the number of
distinct shared concerns. -/
theorem C8_recommend_filter_sorted (profile : SkinProfile) :
    (get_recommended_ingredients skincareKB profile).Perm
        (skincareKB.ingredientsList.filter (recommendOk profile)) ∧
      (∀ x : Ingredient,
        x ∈ get_recommended_ingredients skincareKB profile ↔
          x ∈ skincareKB.ingredientsList ∧
            (∃ c ∈ profile.concerns, c ∈ x.addresses_concerns) ∧
            profile.skin_type ∉ x.caution_skin_types ∧
            x.id ∉ profile.sensitivities) ∧
      (get_recommended_ingredients skincareKB profile).Pairwise
        (fun a b => concernOverlap profile b ≤ concernOverlap profile a) := by
  have hperm := sortByKeyDesc_perm (concernOverlap profile)
    (skincareKB.ingredientsList.filter (recommendOk profile))
  refine ⟨hperm, ?_, sortByKeyDesc_sorted _ _⟩
  intro x
  rw [show get_recommended_ingredients skincareKB profile =
      sortByKeyDesc (concernOverlap profile)
        (skincareKB.ingredientsList.filter (recommendOk profile)) from rfl]
  rw [hperm.mem_iff, List.mem_filter]
  unfold recommendOk
  simp [List.any_eq_true, and_assoc]

/-! ### The advisor (`backend/app/core/agent/advisor.py`), template path -/

/-- `QueryType` enum. -/
inductive QueryType where
  | compatibility | ingredientInfo | routineHelp | concernAdvice | general
  deriving DecidableEq

/-- The `QueryResult` dataclass; Python's float confidences 0.5, 0.6, 0.8 are
the exact rationals `mkRat 1 2`, `mkRat 3 5`, `mkRat 4 5`. -/
structure QueryResult where
  query_type : QueryType
  answer : String
  confidence : ℚ
  sources : List String
  follow_up_questions : List String
  deriving DecidableEq

/-- The `_ingredient_aliases` NLU table, in insertion order. -/
def advisorAliases : List (String × String) := [
  ("vitamin c", "vitamin_c"), ("vit c", "vitamin_c"), ("vitc", "vitamin_c"),
  ("ascorbic acid", "vitamin_c"), ("l-ascorbic acid", "vitamin_c"),
  ("l ascorbic acid", "vitamin_c"), ("ascorbic", "vitamin_c"),
  ("retinol", "retinol"), ("retinoid", "retinol"), ("retin-a", "retinol"),
  ("retin a", "retinol"), ("tretinoin", "retinol"), ("retinal", "retinol"),
  ("retinaldehyde", "retinol"),
  ("aha", "glycolic_acid"), ("ahas", "glycolic_acid"),
  ("alpha hydroxy acid", "glycolic_acid"), ("alpha hydroxy", "glycolic_acid"),
  ("glycolic acid", "glycolic_acid"), ("glycolic", "glycolic_acid"),
  ("lactic acid", "lactic_acid"), ("lactic", "lactic_acid"),
  ("mandelic acid", "mandelic_acid"), ("mandelic", "mandelic_acid"),
  ("bha", "salicylic_acid"), ("bhas", "salicylic_acid"),
  ("beta hydroxy acid", "salicylic_acid"), ("beta hydroxy", "salicylic_acid"),
  ("salicylic acid", "salicylic_acid"), ("salicylic", "salicylic_acid"),
  ("hyaluronic acid", "hyaluronic_acid"), ("hyaluronic", "hyaluronic_acid"),
  ("ha", "hyaluronic_acid"),
  ("niacinamide", "niacinamide"), ("niacin", "niacinamide"),
  ("vitamin b3", "niacinamide"), ("vit b3", "niacinamide"),
  ("benzoyl peroxide", "benzoyl_peroxide"), ("benzoyl", "benzoyl_peroxide"),
  ("bp", "benzoyl_peroxide"),
  ("azelaic acid", "azelaic_acid"), ("azelaic", "azelaic_acid"),
  ("vitamin e", "vitamin_e"), ("vit e", "vitamin_e"),
  ("tocopherol", "vitamin_e"),
  ("ceramides", "ceramides"), ("ceramide", "ceramides"),
  ("peptides", "peptides"), ("peptide", "peptides"),
  ("squalane", "squalane"), ("zinc", "zinc"), ("zinc oxide", "zinc"),
  ("centella", "centella_asiatica"), ("cica", "centella_asiatica"),
  ("centella asiatica", "centella_asiatica"),
  ("arbutin", "arbutin"), ("alpha arbutin", "arbutin"),
  ("kojic acid", "kojic_acid"), ("kojic", "kojic_acid"),
  ("tranexamic acid", "tranexamic_acid"), ("tranexamic", "tranexamic_acid"),
  ("ferulic acid", "ferulic_acid"), ("ferulic", "ferulic_acid"),
  ("panthenol", "panthenol"), ("vitamin b5", "panthenol"),
  ("pro vitamin b5", "panthenol"),
  ("allantoin", "allantoin"), ("bakuchiol", "bakuchiol")]

/-- The `concern_keywords` table of `_get_concern_context`, in insertion
order. -/
def concernKeywords : List (String × SkinConcern) := [
  ("acne", .acne), ("pimple", .acne), ("breakout", .acne),
  ("aging", .aging), ("anti-aging", .aging), ("wrinkle", .aging),
  ("fine line", .aging),
  ("dark spot", .hyperpigmentation), ("hyperpigmentation", .hyperpigmentation),
  ("pigmentation", .hyperpigmentation), ("sun spot", .hyperpigmentation),
  ("melasma", .hyperpigmentation),
  ("dry", .dryness), ("dryness", .dryness), ("dehydrat", .dryness),
  ("oily", .oiliness), ("oiliness", .oiliness), ("sebum", .oiliness),
  ("sensitive", .sensitivity), ("sensitivity", .sensitivity),
  ("irritat", .sensitivity),
  ("redness", .redness), ("rosacea", .redness),
  ("dull", .dullness), ("glow", .dullness), ("bright", .dullness),
  ("texture", .texture), ("rough", .texture),
  ("pore", .pores)]

/-- One alias pass of extraction strategy 1: on a substring hit for a new id,
record the id and blank out every occurrence of the alias. -/
def extractStep (st : List String × String) (kv : String × String) :
    List String × String :=
  if containsSub kv.1 st.2 then
    if st.1.contains kv.2 then st
    else (st.1 ++ [kv.2], replaceStr kv.1 " " st.2)
  else st

/-- `_extract_ingredients`: aliases longest-first over the lower-cased text
with in-place blanking, then catalog display names, then catalog ids with
separator variants, against the mutated text.  The Python `found` set with
its unspecified iteration order is modelled as the insertion-ordered list of
first discoveries; every claim proved about it is order-independent. -/
def extract_ingredients (kb : KnowledgeGraph) (text : String) : List String :=
  let st1 := (sortByKeyDesc (fun p => p.1.length) advisorAliases).foldl
    extractStep ([], lowerStr text)
  let tl := st1.2
  let found2 := kb.ingredientsList.foldl (fun fnd ing =>
    if containsSub (lowerStr ing.name) tl && !fnd.contains ing.id then
      fnd ++ [ing.id]
    else fnd) st1.1
  kb.ingredientsList.foldl (fun fnd ing =>
    if ([ing.id, replaceStr "_" " " ing.id, replaceStr "_" "-" ing.id].any
          fun v => containsSub v tl) && !fnd.contains ing.id then
      fnd ++ [ing.id]
    else fnd) found2

/-- The per-ingredient block of `_build_knowledge_context`. -/
def ingredientBlock (ing : Ingredient) : String :=
  let concerns :=
    if ing.addresses_concerns.isEmpty then "General skincare"
    else String.intercalate ", " (ing.addresses_concerns.map SkinConcern.value)
  "\n### " ++ ing.name ++
    "\n- **Category**: " ++ ing.category.value ++
    "\n- **Description**: " ++ ing.description ++
    "\n- **How it works**: " ++
      (if ing.how_it_works = "" then "N/A" else ing.how_it_works) ++
    "\n- **Best for**: " ++ concerns ++
    "\n- **Best time**: " ++ ing.time_of_day.value ++
    "\n- **Beginner friendly**: " ++
      (if ing.beginner_friendly then "Yes" else "No - start slowly") ++ "\n"

/-- The per-pair part of `_build_knowledge_context`: the explanation and the
compatibility buckets with their framing lines (cautions append the entry
explanation unconditionally; `wait_times` is not consulted by the final
no-known-interactions line, as in the source). -/
def pairSection (kb : KnowledgeGraph) (a b : String) : List String :=
  let explanation := explain_interaction kb a b
  let compat := check_compatibility kb [a, b]
  let an := match get_ingredient kb a with | some i => i.name | none => a
  let bn := match get_ingredient kb b with | some i => i.name | none => b
  ["\n### " ++ an ++ " + " ++ bn] ++
  (if explanation = "" then [] else [explanation]) ++
  (if compat.conflicts.isEmpty then [] else
    "⚠️ **CONFLICT**: These should NOT be used together in the same routine!" ::
      compat.conflicts.filterMap fun c =>
        if c.explanation = "" then none else some ("- " ++ c.explanation)) ++
  (if compat.cautions.isEmpty then [] else
    "⚡ **CAUTION**: Use carefully" ::
      compat.cautions.flatMap fun c =>
        ("- " ++ c.explanation) ::
          (if c.recommendation = "" then []
           else ["- **Recommendation**: " ++ c.recommendation])) ++
  (if compat.synergies.isEmpty then [] else
    "✨ **SYNERGY**: These work great together!" ::
      compat.synergies.filterMap fun s =>
        if s.explanation = "" then none else some ("- " ++ s.explanation)) ++
  (if compat.conflicts.isEmpty && compat.cautions.isEmpty &&
      compat.synergies.isEmpty then
    ["✅ No known interactions - generally safe to use together"]
  else [])

/-- `_build_knowledge_context`: empty for no mentions, else the ingredient
blocks followed, for two or more mentions, by the interactions section over
every `i < j` pair. -/
def build_knowledge_context (kb : KnowledgeGraph) (ingredients : List String) :
    String :=
  if ingredients.isEmpty then ""
  else
    let blocks := ingredients.filterMap fun iid =>
      (get_ingredient kb iid).map ingredientBlock
    let inter :=
      if 2 ≤ ingredients.length then
        "\n## Interactions" ::
          (pairsOf ingredients).flatMap fun p => pairSection kb p.1 p.2
      else []
    String.intercalate "\n" (blocks ++ inter)

/-- The concern keywords matched in a question (`matched_concerns`; the
Python set with its unspecified iteration order is modelled as the
insertion-ordered list of first matches). -/
def concernMatches (question : String) : List SkinConcern :=
  concernKeywords.foldl (fun acc kv =>
    if containsSub kv.1 (lowerStr question) && !acc.contains kv.2 then
      acc ++ [kv.2]
    else acc) []

/-- `_get_concern_context`: empty when no keyword matches, else a header and
up to five recommendations per matched concern. -/
def get_concern_context (kb : KnowledgeGraph) (question : String) : String :=
  let matched := concernMatches question
  if matched.isEmpty then ""
  else
    let sections := matched.flatMap fun c =>
      let recs := kb.ingredientsList.filterMap fun ing =>
        if ing.addresses_concerns.contains c then
          some ("- **" ++ ing.name ++ "**: " ++ takeStr 80 ing.description ++
            "...")
        else none
      if recs.isEmpty then []
      else ("\n### For " ++ SkinConcern.value c ++ ":") :: recs.take 5
    String.intercalate "\n"
      ("\n## Recommended Ingredients for Your Concerns" :: sections)

/-- `_classify_query`: ordered phrase-presence checks, first hit wins. -/
def classify_query (question : String) : QueryType :=
  let q := lowerStr question
  if ["can i use", "can i mix", "together", "combine", "with"].any
      (fun p => containsSub p q) then .compatibility
  else if ["what is", "tell me about", "how does", "what does"].any
      (fun p => containsSub p q) then .ingredientInfo
  else if ["what order", "routine", "layer", "sequence", "first"].any
      (fun p => containsSub p q) then .routineHelp
  else if ["for acne", "for aging", "for dry", "recommend", "should i use for",
      "help with"].any (fun p => containsSub p q) then .concernAdvice
  else .general

/-- The fixed pool of generic follow-up prompts. -/
def followUpGeneral : List String :=
  ["What's a good routine for beginners?",
   "How do I layer my products correctly?",
   "What ingredients should I avoid mixing?"]

/-- The `while len(follow_ups) < 3` padding loop of `_get_follow_ups`; each
round appends the first generic prompt not yet present or stops.  Three
rounds reach length 3 from an empty list, so fuel 4 covers every run. -/
def padFollowUps : Nat → List String → List String
  | 0, fu => fu
  | n + 1, fu =>
    if fu.length < 3 then
      match followUpGeneral.find? (fun g => !fu.contains g) with
      | some g => padFollowUps n (fu ++ [g])
      | none => fu
    else fu

/-- `_get_follow_ups` (its `question` argument is unused in the source):
best-time prompts for the first two resolvable mentions, a pairing prompt
for a single mention, padded to three with the generic pool.  (The source
guards the first part with `if ingredients:`, which is redundant: an empty
list contributes nothing.) -/
def get_follow_ups (kb : KnowledgeGraph) (ingredients : List String) :
    List String :=
  let fu0 := (ingredients.take 2).filterMap fun iid =>
    (get_ingredient kb iid).map fun ing =>
      "When is the best time to use " ++ ing.name ++ "?"
  let fu1 :=
    if ingredients.length = 1 then
      match ingredients with
      | iid :: _ =>
        match get_ingredient kb iid with
        | some ing =>
            fu0 ++ ["What ingredients pair well with " ++ ing.name ++ "?"]
        | none => fu0
      | [] => fu0
    else fu0
  (padFollowUps 4 fu1).take 3

/-- The fixed no-mention template answer. -/
def fixedAskMessage : String :=
  "I'd be happy to help with your skincare question! \n\nTo give you the best advice, try asking about specific ingredients. For example:\n• \"Can I use retinol with vitamin C?\"\n• \"What is niacinamide good for?\"  \n• \"What should I use for acne?\"\n\nI have information on 26 ingredients and 41 interaction rules in my knowledge base."

/-- The conflict-bucket phrasing of the template answer. -/
def conflictAnswer (context : String) : String :=
  "⚠️ **I'd be careful with this combination.**\n\n" ++ context ++
    "\n\nConsider using these ingredients at different times (one in AM, one in PM) or on alternating days."

/-- The caution-bucket phrasing of the template answer. -/
def cautionAnswer (context : String) : String :=
  "⚡ **These can be used together, but with some caution.**\n\n" ++ context ++
    "\n\n**Tip**: Start slowly and monitor how your skin reacts."

/-- The synergy-bucket phrasing of the template answer. -/
def synergyAnswer (context : String) : String :=
  "✨ **Great news - these ingredients work well together!**\n\n" ++ context

/-- The no-bucket phrasing of the template answer. -/
def safeAnswer (context : String) : String :=
  "✅ **These ingredients are generally safe to use together.**\n\n" ++ context

/-- The zero-or-one-mention phrasing of the template answer. -/
def rawAnswer (context : String) : String :=
  "Here's what I know:\n\n" ++ context

/-- `_generate_rule_response`: the fixed message at confidence 0.5 when no
ingredient was mentioned and the context is empty; otherwise the
worst-bucket phrasing for two or more mentions, or the raw context, at
confidence 0.8 with mentions and 0.6 without.  (The source also computes an
`ing_names` list it never uses.) -/
def generate_rule_response (kb : KnowledgeGraph)
    (question context : String) (ingredients : List String) : QueryResult :=
  if ingredients.isEmpty && context == "" then
    { query_type := .general
      answer := fixedAskMessage
      confidence := mkRat 1 2
      sources := []
      follow_up_questions :=
        ["Can I use retinol with niacinamide?",
         "What ingredients help with acne?",
         "What's a good anti-aging routine?"] }
  else
    let answer :=
      if 2 ≤ ingredients.length then
        let compat := check_compatibility kb ingredients
        if !compat.conflicts.isEmpty then conflictAnswer context
        else if !compat.cautions.isEmpty then cautionAnswer context
        else if !compat.synergies.isEmpty then synergyAnswer context
        else safeAnswer context
      else rawAnswer context
    { query_type := classify_query question
      answer := answer
      confidence := if ingredients.isEmpty then mkRat 3 5 else mkRat 4 5
      sources := ingredients.map fun i => "Knowledge base: " ++ i
      follow_up_questions := get_follow_ups kb ingredients }

/-- The context `ask` hands to the response generator: the knowledge context
of the extracted mentions followed by the concern context. -/
def rule_context (kb : KnowledgeGraph) (question : String) : String :=
  build_knowledge_context kb (extract_ingredients kb question) ++
    get_concern_context kb question

/-- `ask` on the template path (no LLM client configured). -/
def ask_rule_based (kb : KnowledgeGraph) (question : String) : QueryResult :=
  generate_rule_response kb question (rule_context kb question)
    (extract_ingredients kb question)

/-! ### The routine builder validity flag (C7) -/

/-- `RoutineTime` of `app.core.routines.builder`. -/
inductive RoutineTime where
  | am | pm
  deriving DecidableEq

/-- A routine-building input product: a name and its resolved ingredient
ids. -/
structure RoutineProduct where
  name : String
  ingredients : List String
  deriving DecidableEq

/-- Modelled from the spec: `RoutineBuilder.build_routine`
(`app.core.routines.builder` is not among the sources; only its callers and
tests are) — the `is_valid` flag of the returned `RoutineAnalysis`: all
ingredient ids across the input products are flattened, `check_compatibility`
runs over the deduplicated id set, and `is_valid` mirrors its
`is_compatible`; the time of day plays no part in the flag. -/
def build_routine_is_valid (kb : KnowledgeGraph)
    (products : List RoutineProduct) (_t : RoutineTime) : Bool :=
  (check_compatibility kb
    ((products.flatMap RoutineProduct.ingredients).dedup)).is_compatible

/-! ### Claim theorems: C7, C9, C10 -/

set_option maxRecDepth 16000

/-- C7: `build_routine`'s analysis `is_valid` equals the `is_compatible` flag
of `check_compatibility` over the union of the products' ingredient ids, and
the retinol-product / glycolic-acid-product PM scenario is invalid. -/
theorem C7_routine_validity :
    (∀ (products : List RoutineProduct) (t : RoutineTime),
        build_routine_is_valid skincareKB products t =
          (check_compatibility skincareKB
            ((products.flatMap RoutineProduct.ingredients).dedup)).is_compatible)
      ∧
      build_routine_is_valid skincareKB
        [{ name := "Retinol Serum", ingredients := ["retinol"] },
         { name := "Glycolic Toner", ingredients := ["glycolic_acid"] }]
        RoutineTime.pm = false :=
  ⟨fun _ _ => rfl, by decide⟩

/-- C9 counterexample: a question mentioning exactly one ingredient, with
non-empty context, is answered at confidence 0.8, not the claimed 0.6. -/
theorem C9_counterexample_single_mention_confidence :
    (extract_ingredients skincareKB "Tell me about squalane").length = 1 ∧
      rule_context skincareKB "Tell me about squalane" ≠ "" ∧
      (ask_rule_based skincareKB "Tell me about squalane").confidence =
        mkRat 4 5 ∧
      mkRat 4 5 ≠ mkRat 3 5 := by
  refine ⟨by decide, by decide, by decide, by decide⟩

/-- C9 (amended): on the template path, a question with no mentioned
ingredient and no matched concern keyword gets the fixed ask-me-about result
at confidence 0.5; with two or more mentions the answer is phrased by the
worst compatibility bucket (conflict, then caution, then synergy, then the
generally-safe text) at confidence 0.8; with exactly one mention the raw
context is returned at confidence 0.8; with no mention but non-empty context
the raw context is returned at confidence 0.6. -/
theorem C9_template_path (question : String) :
    ((extract_ingredients skincareKB question = [] ∧
        concernMatches question = []) →
      ask_rule_based skincareKB question =
        { query_type := .general
          answer := fixedAskMessage
          confidence := mkRat 1 2
          sources := []
          follow_up_questions :=
            ["Can I use retinol with niacinamide?",
             "What ingredients help with acne?",
             "What's a good anti-aging routine?"] }) ∧
    (2 ≤ (extract_ingredients skincareKB question).length →
      (ask_rule_based skincareKB question).confidence = mkRat 4 5 ∧
      ((check_compatibility skincareKB
          (extract_ingredients skincareKB question)).conflicts ≠ [] →
        (ask_rule_based skincareKB question).answer =
          conflictAnswer (rule_context skincareKB question)) ∧
      ((check_compatibility skincareKB
          (extract_ingredients skincareKB question)).conflicts = [] →
        (check_compatibility skincareKB
          (extract_ingredients skincareKB question)).cautions ≠ [] →
        (ask_rule_based skincareKB question).answer =
          cautionAnswer (rule_context skincareKB question)) ∧
      ((check_compatibility skincareKB
          (extract_ingredients skincareKB question)).conflicts = [] →
        (check_compatibility skincareKB
          (extract_ingredients skincareKB question)).cautions = [] →
        (check_compatibility skincareKB
          (extract_ingredients skincareKB question)).synergies ≠ [] →
        (ask_rule_based skincareKB question).answer =
          synergyAnswer (rule_context skincareKB question)) ∧
      ((check_compatibility skincareKB
          (extract_ingredients skincareKB question)).conflicts = [] →
        (check_compatibility skincareKB
          (extract_ingredients skincareKB question)).cautions = [] →
        (check_compatibility skincareKB
          (extract_ingredients skincareKB question)).synergies = [] →
        (ask_rule_based skincareKB question).answer =
          safeAnswer (rule_context skincareKB question))) ∧
    ((extract_ingredients skincareKB question).length ≤ 1 →
      extract_ingredients skincareKB question ≠ [] →
      (ask_rule_based skincareKB question).answer =
          rawAnswer (rule_context skincareKB question) ∧
        (ask_rule_based skincareKB question).confidence = mkRat 4 5) ∧
    (extract_ingredients skincareKB question = [] →
      rule_context skincareKB question ≠ "" →
      (ask_rule_based skincareKB question).answer =
          rawAnswer (rule_context skincareKB question) ∧
        (ask_rule_based skincareKB question).confidence = mkRat 3 5) := by
  refine ⟨?_, ?_, ?_, ?_⟩
  · rintro ⟨h1, h2⟩
    have hcc : get_concern_context skincareKB question = "" := by
      unfold get_concern_context
      rw [h2]
      rfl
    have hctx : rule_context skincareKB question = "" := by
      unfold rule_context
      rw [h1, hcc]
      rfl
    unfold ask_rule_based generate_rule_response
    rw [h1, hctx]
    rfl
  · intro h2
    have hne : extract_ingredients skincareKB question ≠ [] := by
      intro h0
      rw [h0] at h2
      simp at h2
    have hE : (extract_ingredients skincareKB question).isEmpty = false := by
      simp [hne]
    unfold ask_rule_based generate_rule_response
    refine ⟨?_, ?_, ?_, ?_, ?_⟩
    · simp [hE, h2]
    · intro hc
      simp [hE, h2, hc]
    · intro hc hca
      simp [hE, h2, hc, hca]
    · intro hc hca hs
      simp [hE, h2, hc, hca, hs]
    · intro hc hca hs
      simp [hE, h2, hc, hca, hs]
  · intro hlen hne
    have hE : (extract_ingredients skincareKB question).isEmpty = false := by
      simp [hne]
    have h2 : ¬(2 ≤ (extract_ingredients skincareKB question).length) := by
      omega
    unfold ask_rule_based generate_rule_response
    constructor
    · simp [hE, h2]
    · simp [hE, h2]
  · intro h0 hctx
    have hc : (rule_context skincareKB question == "") = false := by
      simp [hctx]
    have h2 : ¬(2 ≤ (extract_ingredients skincareKB question).length) := by
      rw [h0]
      simp
    unfold ask_rule_based generate_rule_response
    constructor
    · simp [h0, hc, h2]
    · simp [h0, hc, h2]

/-- Witness for C9 (amended): "hello" mentions nothing and matches no
concern keyword, giving the fixed result at confidence 0.5; "Tell me about
squalane" mentions exactly one ingredient, giving the raw context at
confidence 0.8. -/
theorem C9_template_path_witness :
    ask_rule_based skincareKB "hello" =
        { query_type := .general
          answer := fixedAskMessage
          confidence := mkRat 1 2
          sources := []
          follow_up_questions :=
            ["Can I use retinol with niacinamide?",
             "What ingredients help with acne?",
             "What's a good anti-aging routine?"] } ∧
      (ask_rule_based skincareKB "Tell me about squalane").answer =
        rawAnswer (rule_context skincareKB "Tell me about squalane") ∧
      (ask_rule_based skincareKB "Tell me about squalane").confidence =
        mkRat 4 5 := by
  refine ⟨(C9_template_path "hello").1 ⟨by decide, by decide⟩, ?_, ?_⟩
  · exact ((C9_template_path "Tell me about squalane").2.2.1
      (by decide) (by decide)).1
  · exact ((C9_template_path "Tell me about squalane").2.2.1
      (by decide) (by decide)).2

/-- C10: the NLU alias table maps some mentions to identifiers that are no
catalog ids — "cica" extracts `centella_asiatica` and "ferulic acid"
extracts `ferulic_acid`, neither of which `get_ingredient` resolves — so
extracted mention sets are not guaranteed to be valid catalog ids. -/
theorem C10_extraction_unresolvable :
    extract_ingredients skincareKB "cica" = ["centella_asiatica"] ∧
      get_ingredient skincareKB "centella_asiatica" = none ∧
      extract_ingredients skincareKB "ferulic acid" = ["ferulic_acid"] ∧
      get_ingredient skincareKB "ferulic_acid" = none := by
  refine ⟨by decide, by decide, by decide, by decide⟩

end MixMyRoutine
